import Mathlib

/-!
# Verification of `keybase chat search` (go/client/cmd_chat_search.go)

A shallow embedding of `CmdChatSearch.ParseArgv` and `CmdChatSearch.Run`.

The command talks to collaborators that live outside the file: the CLI
framework context, the conversation-reference parser, the date parser, the
pattern compiler, the terminal probe, the RPC registration, the conversation
resolver and the search client.  Each of them is a field of an environment
record, so every theorem quantifies over all their possible behaviours.
Every collaborator is called at most once per `ParseArgv` and at most once
per `Run`, so a function from arguments to results can reproduce any real
execution.

Both operations return an `Outcome`: the collaborator calls made, in order
(`trace`), the command state left behind (`cmd`), and the Go `error` result
(`err`, where `none` is Go's `nil`).
-/

namespace ChatSearch

/-- Go `error` values.  `errorString` is a value made by `errors.New` or
`fmt.Errorf` (identified by its message), `CantRunInStandaloneError` is the
struct of that name, and `foreign` is any other error value handed back by
a collaborator. -/
inductive Error where
  | errorString (msg : String)
  | CantRunInStandaloneError
  | foreign (code : Nat)
deriving DecidableEq, Repr

/-- The type `chat1.ConversationMembersType`: the three tags named by `Run`, and
`other` for every remaining value of the underlying integer type. -/
inductive ConversationMembersType where
  | TEAM
  | IMPTEAMNATIVE
  | IMPTEAMUPGRADE
  | other (tag : Int)
deriving DecidableEq, Repr

/-- The struct `chatConversationResolvingRequest`.  The file reads `TlfName` and
`MembersType`; `rest` stands for the fields it only passes along. -/
structure chatConversationResolvingRequest where
  TlfName : String
  MembersType : ConversationMembersType
  rest : Nat
deriving DecidableEq, Repr

/-- The struct `chat1.SearchOpts`, with the fields the file assigns.  The two
timestamps are `gregor1.Time` values (an integer type, zero when unset). -/
structure SearchOpts where
  SentBy : String
  SentBefore : Int
  SentAfter : Int
  MaxHits : Int
  MaxMessages : Int
  BeforeContext : Int
  AfterContext : Int
deriving DecidableEq, Repr

/-- The struct `CmdChatSearch` (without the embedded global context, which is
carried by the environments below). -/
structure CmdChatSearch where
  resolvingRequest : chatConversationResolvingRequest
  query : String
  opts : SearchOpts
  isRegex : Bool
  hasTTY : Bool
deriving DecidableEq, Repr

/-- The value built by `NewCmdChatSearchRunner`: every field other than the
global context holds its Go zero value. -/
def NewCmdChatSearchRunner : CmdChatSearch :=
  { resolvingRequest := { TlfName := "", MembersType := ConversationMembersType.other 0, rest := 0 }
    query := ""
    opts := { SentBy := "", SentBefore := 0, SentAfter := 0, MaxHits := 0, MaxMessages := 0,
              BeforeContext := 0, AfterContext := 0 }
    isRegex := false
    hasTTY := false }

/-- The part of `cli.Context` that `ParseArgv` uses: the positional arguments
and the typed flag lookups `ctx.Int`, `ctx.Bool`, `ctx.String`. -/
structure Context where
  Args : List String
  Int : String → Int
  Bool : String → Bool
  String : String → String

/-- The struct `chatConversationResolvingBehavior` as `Run` fills it in.  The
field `IdentifyBehavior` is always `TLFIdentifyBehavior_CHAT_CLI` and is left
out. -/
structure chatConversationResolvingBehavior where
  CreateIfNotExists : Bool
  MustNotExist : Bool
  Interactive : Bool
deriving DecidableEq, Repr

/-- The struct `chat1.GetSearchRegexpArg` as `Run` fills it in.  `ConvID` is the
resolved conversation id; `IdentifyBehavior` is always
`TLFIdentifyBehavior_CHAT_CLI` and is left out. -/
structure GetSearchRegexpArg where
  ConvID : Nat
  Query : String
  IsRegex : Bool
  Opts : SearchOpts
deriving DecidableEq, Repr

/-- One call from the command to a collaborator, with the arguments passed. -/
inductive Event where
  | parseConversationResolvingRequest (tlfName : String)
  | ParseAny (datestr : String)
  | Compile (expr : String)
  | IsTerminal
  | RegisterProtocolsWithContext
  | annotateResolvingRequest (req : chatConversationResolvingRequest)
  | StartStandaloneChat
  | newChatConversationResolver
  | Resolve (req : chatConversationResolvingRequest) (behavior : chatConversationResolvingBehavior)
  | GetSearchRegexp (arg : GetSearchRegexpArg)
deriving DecidableEq, Repr

/-- What a call of `ParseArgv` or `Run` leaves behind. -/
structure Outcome where
  trace : List Event
  cmd : CmdChatSearch
  err : Option Error
deriving DecidableEq, Repr

/-- The collaborators and constants of `ParseArgv`.
* `MaxAllowedSearchHits`, `MaxAllowedSearchMessages`: constants of package `search`;
* `parseConversationResolvingRequest`: returns the request and the error;
* `ParseAny`: `dateparse.ParseAny`, returning the `time.Time` (here an integer
  handle) and the error;
* `ToTime`: `gregor1.ToTime`;
* `QuoteMeta`, `Compile`: `regexp.QuoteMeta` and the error result of
  `regexp.Compile`;
* `IsTerminal`: `isatty.IsTerminal(os.Stdin.Fd())`. -/
structure ParseEnv where
  MaxAllowedSearchHits : Int
  MaxAllowedSearchMessages : Int
  parseConversationResolvingRequest : Context → String → chatConversationResolvingRequest × Option Error
  ParseAny : String → Int × Option Error
  ToTime : Int → Int
  QuoteMeta : String → String
  Compile : String → Option Error
  IsTerminal : Bool

/-- The usage error of `ParseArgv`. -/
def usageError : Error :=
  Error.errorString "usage: keybase chat search <conversation> <query>"

/-- The error of `ParseArgv` for two date filters. -/
def onlyOneDateError : Error :=
  Error.errorString "Only one of sent-before and sent-after can be specified"

/-- The value of `fmt.Errorf("max-hits cannot exceed %d.", n)`. -/
def maxHitsError (n : Int) : Error :=
  Error.errorString ("max-hits cannot exceed " ++ toString n ++ ".")

/-- The value of `fmt.Errorf("max-messages cannot exceed %d.", n)`. -/
def maxMessagesError (n : Int) : Error :=
  Error.errorString ("max-messages cannot exceed " ++ toString n ++ ".")

/-- The method `CmdChatSearch.ParseArgv`, statement by statement.  Each early
`return` keeps the assignments made to the receiver so far. -/
def ParseArgv (env : ParseEnv) (ctx : Context) (c : CmdChatSearch) : Outcome :=
  if ctx.Args.length ≠ 2 then
    { trace := [], cmd := c, err := some usageError }
  else
    let tlfName := ctx.Args.getD 0 ""
    let r := env.parseConversationResolvingRequest ctx tlfName
    let c := { c with resolvingRequest := r.1 }
    let t := [Event.parseConversationResolvingRequest tlfName]
    match r.2 with
    | some e => { trace := t, cmd := c, err := some e }
    | none =>
      let c := { c with query := ctx.Args.getD 1 "" }
      let c := { c with opts := { c.opts with SentBy := ctx.String "sent-by" } }
      let sentBeforeStr := ctx.String "sent-before"
      let sentAfterStr := ctx.String "sent-after"
      if sentBeforeStr ≠ "" ∧ sentAfterStr ≠ "" then
        { trace := t, cmd := c, err := some onlyOneDateError }
      else
        let before : List Event × CmdChatSearch × Option Error :=
          if sentBeforeStr ≠ "" then
            match env.ParseAny sentBeforeStr with
            | (_, some e) => (t ++ [Event.ParseAny sentBeforeStr], c, some e)
            | (sentBefore, none) =>
              (t ++ [Event.ParseAny sentBeforeStr],
               { c with opts := { c.opts with SentBefore := env.ToTime sentBefore } }, none)
          else (t, c, none)
        match before with
        | (t, c, some e) => { trace := t, cmd := c, err := some e }
        | (t, c, none) =>
          let after : List Event × CmdChatSearch × Option Error :=
            if sentAfterStr ≠ "" then
              match env.ParseAny sentAfterStr with
              | (_, some e) => (t ++ [Event.ParseAny sentAfterStr], c, some e)
              | (sentAfter, none) =>
                (t ++ [Event.ParseAny sentAfterStr],
                 { c with opts := { c.opts with SentAfter := env.ToTime sentAfter } }, none)
            else (t, c, none)
          match after with
          | (t, c, some e) => { trace := t, cmd := c, err := some e }
          | (t, c, none) =>
            let c := { c with opts := { c.opts with MaxHits := ctx.Int "max-hits" } }
            if c.opts.MaxHits > env.MaxAllowedSearchHits then
              { trace := t, cmd := c, err := some (maxHitsError env.MaxAllowedSearchHits) }
            else
              let c := { c with opts := { c.opts with MaxMessages := ctx.Int "max-messages" } }
              if c.opts.MaxMessages > env.MaxAllowedSearchMessages then
                { trace := t, cmd := c, err := some (maxMessagesError env.MaxAllowedSearchMessages) }
              else
                let c := { c with opts := { c.opts with AfterContext := ctx.Int "after-context" } }
                let c := { c with opts := { c.opts with BeforeContext := ctx.Int "before-context" } }
                let c : CmdChatSearch :=
                  if c.opts.AfterContext = (0 : Int) ∧ c.opts.BeforeContext = (0 : Int) then
                    let context := ctx.Int "context"
                    let c := { c with opts := { c.opts with BeforeContext := context } }
                    { c with opts := { c.opts with AfterContext := context } }
                  else c
                let c := { c with isRegex := ctx.Bool "regex" }
                let query := if !c.isRegex then env.QuoteMeta c.query else c.query
                let t := t ++ [Event.Compile query]
                match env.Compile query with
                | some e => { trace := t, cmd := c, err := some e }
                | none =>
                  let t := t ++ [Event.IsTerminal]
                  let c := { c with hasTTY := env.IsTerminal }
                  { trace := t, cmd := c, err := none }

/-- The collaborators of `Run`.
* `Standalone`: the field `c.G().Standalone`;
* `RegisterProtocolsWithContext`: its error result;
* `annotateResolvingRequest`: the request as rewritten through the pointer,
  and the error;
* `newChatConversationResolver`: its error result;
* `Resolve`: the id `conversation.Info.Id` and the error;
* `GetSearchRegexp`: the error result of the search call. -/
structure RunEnv where
  Standalone : Bool
  RegisterProtocolsWithContext : Option Error
  annotateResolvingRequest : chatConversationResolvingRequest → chatConversationResolvingRequest × Option Error
  newChatConversationResolver : Option Error
  Resolve : chatConversationResolvingRequest → chatConversationResolvingBehavior → Nat × Option Error
  GetSearchRegexp : GetSearchRegexpArg → Option Error

/-- The method `CmdChatSearch.Run`, statement by statement.  Lines 99 to 105
only build the `ChatUI` value and the protocol list handed to
`RegisterProtocolsWithContext`; they call no collaborator and leave no event. -/
def Run (env : RunEnv) (c : CmdChatSearch) : Outcome :=
  let t := [Event.RegisterProtocolsWithContext]
  match env.RegisterProtocolsWithContext with
  | some e => { trace := t, cmd := c, err := some e }
  | none =>
    let annotated : List Event × CmdChatSearch × Option Error :=
      if c.resolvingRequest.TlfName ≠ "" then
        let r := env.annotateResolvingRequest c.resolvingRequest
        (t ++ [Event.annotateResolvingRequest c.resolvingRequest],
         { c with resolvingRequest := r.1 }, r.2)
      else (t, c, none)
    match annotated with
    | (t, c, some e) => { trace := t, cmd := c, err := some e }
    | (t, c, none) =>
      let gate : List Event × Option Error :=
        if env.Standalone then
          match c.resolvingRequest.MembersType with
          | ConversationMembersType.TEAM
          | ConversationMembersType.IMPTEAMNATIVE
          | ConversationMembersType.IMPTEAMUPGRADE => (t ++ [Event.StartStandaloneChat], none)
          | _ => (t, some Error.CantRunInStandaloneError)
        else (t, none)
      match gate with
      | (t, some e) => { trace := t, cmd := c, err := some e }
      | (t, none) =>
        let t := t ++ [Event.newChatConversationResolver]
        match env.newChatConversationResolver with
        | some e => { trace := t, cmd := c, err := some e }
        | none =>
          let behavior : chatConversationResolvingBehavior :=
            { CreateIfNotExists := false, MustNotExist := false, Interactive := c.hasTTY }
          let t := t ++ [Event.Resolve c.resolvingRequest behavior]
          match env.Resolve c.resolvingRequest behavior with
          | (_, some e) => { trace := t, cmd := c, err := some e }
          | (id, none) =>
            let arg : GetSearchRegexpArg :=
              { ConvID := id, Query := c.query, IsRegex := c.isRegex, Opts := c.opts }
            let t := t ++ [Event.GetSearchRegexp arg]
            { trace := t, cmd := c, err := env.GetSearchRegexp arg }

/-! ## A concrete environment

Used to evaluate the two methods at explicit inputs. -/

/-- The predicate `special` of Go's package `regexp`: the bytes escaped by
`QuoteMeta`, which are the bytes of the string `\.+*?()|[]{}^$`. -/
def special (b : Char) : Bool :=
  b ∈ ['\\', '.', '+', '*', '?', '(', ')', '|', '[', ']', '{', '}', '^', '$']

/-- Go's `regexp.QuoteMeta`: a backslash is put before every special byte. -/
def QuoteMeta (s : String) : String :=
  String.mk (s.toList.flatMap fun b => if special b then ['\\', b] else [b])

/-- A stand-in for the error result of `regexp.Compile` at the patterns used
below: it rejects a pattern with an unbalanced unescaped parenthesis or a
trailing backslash, as `regexp.Compile` does, and accepts the rest. -/
def compileCheck : List Char → Nat → Bool
  | [], depth => depth == 0
  | b :: rest, depth =>
    if b = '(' then compileCheck rest (depth + 1)
    else if b = ')' then (depth != 0 && compileCheck rest (depth - 1))
    else if b = '\\' then
      match rest with
      | [] => false
      | _ :: rest2 => compileCheck rest2 depth
    else compileCheck rest depth

/-- The environment of the examples: the limits 10000 and 100000, a reference
parser that accepts every name but the empty one, a date parser that knows
one date, and a terminal. -/
def sampleParseEnv : ParseEnv :=
  { MaxAllowedSearchHits := 10000
    MaxAllowedSearchMessages := 100000
    parseConversationResolvingRequest := fun _ tlfName =>
      if tlfName = "" then
        ({ TlfName := "", MembersType := ConversationMembersType.other 0, rest := 0 },
         some (Error.foreign 1))
      else
        ({ TlfName := tlfName, MembersType := ConversationMembersType.other 0, rest := 0 }, none)
    ParseAny := fun datestr =>
      if datestr = "2018-01-01" then (1514764800000, none) else (0, some (Error.foreign 2))
    ToTime := fun t => t
    QuoteMeta := QuoteMeta
    Compile := fun expr => if compileCheck expr.toList 0 then none else some (Error.foreign 3)
    IsTerminal := true }

/-- A context with the given positional arguments and the flag values of
`newCmdChatSearch` (lines 49 to 94 of the source) where nothing else is said. -/
def sampleContext (args : List String) (ints : List (String × Int))
    (strings : List (String × String)) (regex : Bool) : Context :=
  { Args := args
    Int := fun name =>
      match ints.lookup name with
      | some v => v
      | none =>
        if name = "max-hits" then 10
        else if name = "max-messages" then 10000
        else if name = "context" then 2
        else 0
    Bool := fun name => name = "regex" && regex
    String := fun name => (strings.lookup name).getD "" }

/-- The collaborators of a `Run` in which every call succeeds: the annotation
leaves the request as it is and the resolver finds conversation 7. -/
def sampleRunEnv (standalone : Bool) : RunEnv :=
  { Standalone := standalone
    RegisterProtocolsWithContext := none
    annotateResolvingRequest := fun req => (req, none)
    newChatConversationResolver := none
    Resolve := fun _ _ => (7, none)
    GetSearchRegexp := fun _ => none }

/-- The collaborators of a standalone `Run` whose protocol registration fails. -/
def failingRegistrationEnv : RunEnv :=
  { sampleRunEnv true with RegisterProtocolsWithContext := some (Error.foreign 4) }

/-- A parsed command for the conversation named `tlfName` with the given
membership type. -/
def sampleCmd (tlfName : String) (membersType : ConversationMembersType) : CmdChatSearch :=
  { NewCmdChatSearchRunner with
    resolvingRequest := { TlfName := tlfName, MembersType := membersType, rest := 0 }
    query := "hello" }

/-- One positional argument only. -/
def oneArgContext : Context := sampleContext ["alice"] [] [] false

/-- The invocation `keybase chat search alice a.b`. -/
def literalContext : Context := sampleContext ["alice", "a.b"] [] [] false

/-- Both date filters given, together with a max-hits over the limit, an
unparseable date and an unbalanced pattern. -/
def conflictContext : Context :=
  sampleContext ["alice", "("] [("max-hits", 20000)]
    [("sent-before", "yesterday"), ("sent-after", "2018-01-01")] true

/-- The invocation `keybase chat search --max-hits n alice hello`. -/
def maxHitsContext (n : Int) : Context := sampleContext ["alice", "hello"] [("max-hits", n)] [] false

/-- The invocation with `--max-hits 0 --max-messages -1`. -/
def capsBelowOneContext : Context :=
  sampleContext ["alice", "hello"] [("max-hits", 0), ("max-messages", -1)] [] false

/-- The invocation with `-C 5` and no `-A`, `-B`. -/
def symmetricContext : Context := sampleContext ["alice", "hello"] [("context", 5)] [] false

/-- The invocation with `-B 3` and no `-A`, `-C`. -/
def beforeOnlyContext : Context :=
  sampleContext ["alice", "hello"] [("before-context", 3)] [] false

/-- The invocation `keybase chat search -r alice "("`. -/
def badRegexContext : Context := sampleContext ["alice", "("] [] [] true

/-- The membership type read by the `switch` of `Run`: the one written by
`annotateResolvingRequest` when `TlfName` is not empty, else the stored one. -/
def gateMembersType (env : RunEnv) (c : CmdChatSearch) : ConversationMembersType :=
  if c.resolvingRequest.TlfName ≠ "" then
    (env.annotateResolvingRequest c.resolvingRequest).1.MembersType
  else c.resolvingRequest.MembersType

/-- The events by which `Run` creates or calls the conversation resolver. -/
def Event.isResolver : Event → Bool
  | Event.newChatConversationResolver => true
  | Event.Resolve _ _ => true
  | _ => false

/-- The command state when `Run` reaches its `switch`: the request is the one
rewritten by `annotateResolvingRequest` when `TlfName` is not empty. -/
def gateCmd (env : RunEnv) (c : CmdChatSearch) : CmdChatSearch :=
  if c.resolvingRequest.TlfName ≠ "" then
    { c with resolvingRequest := (env.annotateResolvingRequest c.resolvingRequest).1 }
  else c

/-- The calls made by `Run` before its `switch`. -/
def gateTrace (c : CmdChatSearch) : List Event :=
  Event.RegisterProtocolsWithContext ::
    (if c.resolvingRequest.TlfName ≠ "" then
      [Event.annotateResolvingRequest c.resolvingRequest]
    else [])

/-- Lines 129 to 155 of `Run`, from the creation of the resolver on, after the
calls `t`. -/
def resolveAndSearch (env : RunEnv) (t : List Event) (c : CmdChatSearch) : Outcome :=
  let t := t ++ [Event.newChatConversationResolver]
  match env.newChatConversationResolver with
  | some e => { trace := t, cmd := c, err := some e }
  | none =>
    let behavior : chatConversationResolvingBehavior :=
      { CreateIfNotExists := false, MustNotExist := false, Interactive := c.hasTTY }
    let t := t ++ [Event.Resolve c.resolvingRequest behavior]
    match env.Resolve c.resolvingRequest behavior with
    | (_, some e) => { trace := t, cmd := c, err := some e }
    | (id, none) =>
      let arg : GetSearchRegexpArg :=
        { ConvID := id, Query := c.query, IsRegex := c.isRegex, Opts := c.opts }
      let t := t ++ [Event.GetSearchRegexp arg]
      { trace := t, cmd := c, err := env.GetSearchRegexp arg }

/-- The invocation `keybase chat search alice ""`: the query is the empty string. -/
def emptyQueryContext : Context := sampleContext ["alice", ""] [] [] false

/-- The invocation with `--sent-before 2018-01-01`. -/
def sentBeforeContext : Context :=
  sampleContext ["alice", "hello"] [] [("sent-before", "2018-01-01")] false

/-- The invocation with `--sent-after yesterday`, a date the sample parser
does not know. -/
def badSentAfterContext : Context :=
  sampleContext ["alice", "hello"] [] [("sent-after", "yesterday")] false

/-- The invocation `keybase chat search --max-messages n alice hello`. -/
def maxMessagesContext (n : Int) : Context :=
  sampleContext ["alice", "hello"] [("max-messages", n)] [] false

/-- The invocation with `-B -3` and no `-A`, `-C`. -/
def negativeBeforeContext : Context :=
  sampleContext ["alice", "hello"] [("before-context", -3)] [] false

/-- The invocation with `-C -1` and no `-A`, `-B`. -/
def negativeSymmetricContext : Context :=
  sampleContext ["alice", "hello"] [("context", -1)] [] false

/-! ## The declared flags -/

/-- The `Value` of a command-line flag: that of a `cli.BoolFlag`, a `cli.IntFlag`
or a `cli.StringFlag`. -/
inductive FlagValue where
  | bool (b : Bool)
  | int (n : Int)
  | string (s : String)
deriving DecidableEq, Repr

/-- A flag declaration: its long name and its default `Value`. -/
structure Flag where
  Name : String
  Value : FlagValue
deriving DecidableEq, Repr

/-- The nine flags that `newCmdChatSearch` appends on lines 50 to 93, each with
its declared `Value` (a `cli.BoolFlag` starts false).  The short names `r`,
`B`, `A`, `C` are aliases of `regex`, `before-context`, `after-context`,
`context`.  The flags of `getConversationResolverFlags()` are read by
`parseConversationResolvingRequest` only and are not listed. -/
def newCmdChatSearch : List Flag :=
  [ { Name := "regex", Value := FlagValue.bool false },
    { Name := "max-hits", Value := FlagValue.int 10 },
    { Name := "sent-by", Value := FlagValue.string "" },
    { Name := "sent-before", Value := FlagValue.string "" },
    { Name := "sent-after", Value := FlagValue.string "" },
    { Name := "max-messages", Value := FlagValue.int 10000 },
    { Name := "before-context", Value := FlagValue.int 0 },
    { Name := "after-context", Value := FlagValue.int 0 },
    { Name := "context", Value := FlagValue.int 2 } ]

/-- The value the CLI framework holds for the flag `name`: the one supplied on
the command line, else the declared one. -/
def lookupFlag (flags : List Flag) (supplied : List (String × FlagValue)) (name : String) :
    Option FlagValue :=
  match supplied.lookup name with
  | some v => some v
  | none => (flags.find? fun f => f.Name = name).map fun f => f.Value

/-- The `cli.Context` of an invocation with the declared `flags`, the positional
arguments `args` and the flag values `supplied` on the command line.  A lookup
of the wrong type or of an unknown name gives the zero value, as in the CLI
framework. -/
def newContext (flags : List Flag) (args : List String) (supplied : List (String × FlagValue)) :
    Context :=
  { Args := args
    Int := fun name =>
      match lookupFlag flags supplied name with
      | some (FlagValue.int n) => n
      | _ => 0
    Bool := fun name =>
      match lookupFlag flags supplied name with
      | some (FlagValue.bool b) => b
      | _ => false
    String := fun name =>
      match lookupFlag flags supplied name with
      | some (FlagValue.string s) => s
      | _ => "" }

/-- The invocation `keybase chat search -B 0 -A 0 -C 7 alice hello`. -/
def explicitZeroContext : Context :=
  newContext newCmdChatSearch ["alice", "hello"]
    [("before-context", FlagValue.int 0), ("after-context", FlagValue.int 0),
     ("context", FlagValue.int 7)]

/-- The invocation `keybase chat search -B 4 -C 7 alice hello`. -/
def explicitBeforeContext : Context :=
  newContext newCmdChatSearch ["alice", "hello"]
    [("before-context", FlagValue.int 4), ("context", FlagValue.int 7)]

/-! ## Vocabulary for `Run` and for the order of the checks -/

/-- The search calls among the events. -/
def Event.isSearch : Event → Bool
  | Event.GetSearchRegexp _ => true
  | _ => false

/-- The behaviour record that `Run` passes to `Resolve` (lines 135 to 140). -/
def resolvingBehavior (c : CmdChatSearch) : chatConversationResolvingBehavior :=
  { CreateIfNotExists := false, MustNotExist := false, Interactive := c.hasTTY }

/-- The argument that `Run` builds on lines 146 to 152 from the conversation id
`id`. -/
def searchArg (id : Nat) (c : CmdChatSearch) : GetSearchRegexpArg :=
  { ConvID := id, Query := c.query, IsRegex := c.isRegex, Opts := c.opts }

/-- The run gets past the registration, the annotation and the `switch`, and
the resolver is created and resolves the conversation. -/
def passesGateAndResolves (env : RunEnv) (c : CmdChatSearch) : Prop :=
  env.RegisterProtocolsWithContext = none ∧
  (c.resolvingRequest.TlfName ≠ "" →
    (env.annotateResolvingRequest c.resolvingRequest).2 = none) ∧
  (env.Standalone = true →
    gateMembersType env c = ConversationMembersType.TEAM ∨
    gateMembersType env c = ConversationMembersType.IMPTEAMNATIVE ∨
    gateMembersType env c = ConversationMembersType.IMPTEAMUPGRADE) ∧
  env.newChatConversationResolver = none ∧
  (env.Resolve (gateCmd env c).resolvingRequest (resolvingBehavior c)).2 = none

/-- The eight checks of `ParseArgv` in the order arity, conversation reference,
date-filter conflict, sent-before parse, sent-after parse, max-hits limit,
max-messages limit, pattern compile; each is judged on its own: the error it
reports, or `none` when it passes. -/
def validationChecks (env : ParseEnv) (ctx : Context) : List (Option Error) :=
  [ if ctx.Args.length ≠ 2 then some usageError else none,
    (env.parseConversationResolvingRequest ctx (ctx.Args.getD 0 "")).2,
    if ctx.String "sent-before" ≠ "" ∧ ctx.String "sent-after" ≠ "" then some onlyOneDateError
    else none,
    if ctx.String "sent-before" ≠ "" then (env.ParseAny (ctx.String "sent-before")).2 else none,
    if ctx.String "sent-after" ≠ "" then (env.ParseAny (ctx.String "sent-after")).2 else none,
    if ctx.Int "max-hits" > env.MaxAllowedSearchHits then
      some (maxHitsError env.MaxAllowedSearchHits)
    else none,
    if ctx.Int "max-messages" > env.MaxAllowedSearchMessages then
      some (maxMessagesError env.MaxAllowedSearchMessages)
    else none,
    env.Compile (if ctx.Bool "regex" then ctx.Args.getD 1 ""
      else env.QuoteMeta (ctx.Args.getD 1 "")) ]

/-- The error of the first check that fails, or `none` when none does. -/
def firstError : List (Option Error) → Option Error
  | [] => none
  | some e :: _ => some e
  | none :: rest => firstError rest

/-- The collaborators of a networked `Run` whose resolver does not find the
conversation. -/
def failingResolveEnv : RunEnv :=
  { sampleRunEnv false with Resolve := fun _ _ => (0, some (Error.foreign 5)) }

/-- The collaborators of a standalone `Run` whose annotation fails and leaves
the request as it is. -/
def failingAnnotationEnv : RunEnv :=
  { sampleRunEnv true with
    annotateResolvingRequest := fun req => (req, some (Error.foreign 6)) }

/-! ## `ParseArgv`, one path at a time -/

/-- Wrong number of positional arguments: nothing is called or assigned. -/
theorem ParseArgv_of_bad_arity (env : ParseEnv) (ctx : Context) (c : CmdChatSearch)
    (hargs : ctx.Args.length ≠ 2) :
    ParseArgv env ctx c = { trace := [], cmd := c, err := some usageError } := by
  unfold ParseArgv
  rw [if_pos hargs]

/-- The conversation reference does not parse: its error is returned. -/
theorem ParseArgv_of_bad_reference (env : ParseEnv) (ctx : Context) (c : CmdChatSearch) (e : Error)
    (hargs : ctx.Args.length = 2)
    (hconv : (env.parseConversationResolvingRequest ctx (ctx.Args.getD 0 "")).2 = some e) :
    (ParseArgv env ctx c).err = some e := by
  unfold ParseArgv
  generalize ctx.Args.getD 0 "" = tlf at *
  simp only [hargs, hconv, ne_eq, not_true_eq_false, if_false]

/-- Both date filters non-empty. -/
theorem ParseArgv_of_two_dates (env : ParseEnv) (ctx : Context) (c : CmdChatSearch)
    (hargs : ctx.Args.length = 2)
    (hconv : (env.parseConversationResolvingRequest ctx (ctx.Args.getD 0 "")).2 = none)
    (hb : ctx.String "sent-before" ≠ "") (ha : ctx.String "sent-after" ≠ "") :
    (ParseArgv env ctx c).err = some onlyOneDateError := by
  unfold ParseArgv
  generalize ctx.Args.getD 0 "" = tlf at *
  simp only [hargs, hconv, hb, ha, ne_eq, not_true_eq_false, not_false_eq_true, and_self,
    if_true, if_false]

/-- The sent-before filter does not parse. -/
theorem ParseArgv_of_bad_sent_before (env : ParseEnv) (ctx : Context) (c : CmdChatSearch)
    (e : Error) (hargs : ctx.Args.length = 2)
    (hconv : (env.parseConversationResolvingRequest ctx (ctx.Args.getD 0 "")).2 = none)
    (hb : ctx.String "sent-before" ≠ "") (ha : ctx.String "sent-after" = "")
    (hparse : (env.ParseAny (ctx.String "sent-before")).2 = some e) :
    (ParseArgv env ctx c).err = some e := by
  unfold ParseArgv
  generalize ctx.Args.getD 0 "" = tlf at *
  rcases hpb : env.ParseAny (ctx.String "sent-before") with ⟨tb, eb⟩
  rw [hpb] at hparse
  simp only at hparse
  simp [hargs, hconv, hb, ha, hpb, hparse]

/-- The sent-after filter does not parse. -/
theorem ParseArgv_of_bad_sent_after (env : ParseEnv) (ctx : Context) (c : CmdChatSearch)
    (e : Error) (hargs : ctx.Args.length = 2)
    (hconv : (env.parseConversationResolvingRequest ctx (ctx.Args.getD 0 "")).2 = none)
    (hb : ctx.String "sent-before" = "") (ha : ctx.String "sent-after" ≠ "")
    (hparse : (env.ParseAny (ctx.String "sent-after")).2 = some e) :
    (ParseArgv env ctx c).err = some e := by
  unfold ParseArgv
  generalize ctx.Args.getD 0 "" = tlf at *
  rcases hpa : env.ParseAny (ctx.String "sent-after") with ⟨ta, ea⟩
  rw [hpa] at hparse
  simp only at hparse
  simp [hargs, hconv, hb, ha, hpa, hparse]

/-- The checks before the caps pass and max-hits is over the limit. -/
theorem ParseArgv_of_max_hits_over (env : ParseEnv) (ctx : Context) (c : CmdChatSearch)
    (hargs : ctx.Args.length = 2)
    (hconv : (env.parseConversationResolvingRequest ctx (ctx.Args.getD 0 "")).2 = none)
    (hboth : ¬ (ctx.String "sent-before" ≠ "" ∧ ctx.String "sent-after" ≠ ""))
    (hbefore : ctx.String "sent-before" ≠ "" → (env.ParseAny (ctx.String "sent-before")).2 = none)
    (hafter : ctx.String "sent-after" ≠ "" → (env.ParseAny (ctx.String "sent-after")).2 = none)
    (hhits : ctx.Int "max-hits" > env.MaxAllowedSearchHits) :
    (ParseArgv env ctx c).err = some (maxHitsError env.MaxAllowedSearchHits) := by
  unfold ParseArgv
  generalize ctx.Args.getD 0 "" = tlf at *
  generalize ctx.Args.getD 1 "" = q at *
  by_cases hb : ctx.String "sent-before" = "" <;>
  by_cases ha : ctx.String "sent-after" = "" <;>
  first
    | (exfalso; apply hboth; constructor <;> assumption)
    | (rcases hpb : env.ParseAny (ctx.String "sent-before") with ⟨tb, eb⟩
       rcases hpa : env.ParseAny (ctx.String "sent-after") with ⟨ta, ea⟩
       simp only [hpb, hpa, hb, ha, ne_eq, not_true_eq_false, not_false_eq_true,
         true_implies, false_implies] at hbefore hafter
       simp [hargs, hconv, hb, ha, hpb, hpa, hbefore, hafter, hhits])

/-- The checks up to max-hits pass and max-messages is over the limit. -/
theorem ParseArgv_of_max_messages_over (env : ParseEnv) (ctx : Context) (c : CmdChatSearch)
    (hargs : ctx.Args.length = 2)
    (hconv : (env.parseConversationResolvingRequest ctx (ctx.Args.getD 0 "")).2 = none)
    (hboth : ¬ (ctx.String "sent-before" ≠ "" ∧ ctx.String "sent-after" ≠ ""))
    (hbefore : ctx.String "sent-before" ≠ "" → (env.ParseAny (ctx.String "sent-before")).2 = none)
    (hafter : ctx.String "sent-after" ≠ "" → (env.ParseAny (ctx.String "sent-after")).2 = none)
    (hhits : ctx.Int "max-hits" ≤ env.MaxAllowedSearchHits)
    (hmsgs : ctx.Int "max-messages" > env.MaxAllowedSearchMessages) :
    (ParseArgv env ctx c).err = some (maxMessagesError env.MaxAllowedSearchMessages) := by
  unfold ParseArgv
  generalize ctx.Args.getD 0 "" = tlf at *
  generalize ctx.Args.getD 1 "" = q at *
  have hh : ¬ ctx.Int "max-hits" > env.MaxAllowedSearchHits := not_lt.mpr hhits
  by_cases hb : ctx.String "sent-before" = "" <;>
  by_cases ha : ctx.String "sent-after" = "" <;>
  first
    | (exfalso; apply hboth; constructor <;> assumption)
    | (rcases hpb : env.ParseAny (ctx.String "sent-before") with ⟨tb, eb⟩
       rcases hpa : env.ParseAny (ctx.String "sent-after") with ⟨ta, ea⟩
       simp only [hpb, hpa, hb, ha, ne_eq, not_true_eq_false, not_false_eq_true,
         true_implies, false_implies] at hbefore hafter
       simp [hargs, hconv, hb, ha, hpb, hpa, hbefore, hafter, hh, hmsgs])

/-- Every check before the pattern passes and the compiler rejects the
effective pattern: the compiler is the last collaborator called, with that
pattern, and its error is returned. -/
theorem ParseArgv_of_bad_pattern (env : ParseEnv) (ctx : Context) (c : CmdChatSearch) (e : Error)
    (hargs : ctx.Args.length = 2)
    (hconv : (env.parseConversationResolvingRequest ctx (ctx.Args.getD 0 "")).2 = none)
    (hboth : ¬ (ctx.String "sent-before" ≠ "" ∧ ctx.String "sent-after" ≠ ""))
    (hbefore : ctx.String "sent-before" ≠ "" → (env.ParseAny (ctx.String "sent-before")).2 = none)
    (hafter : ctx.String "sent-after" ≠ "" → (env.ParseAny (ctx.String "sent-after")).2 = none)
    (hhits : ctx.Int "max-hits" ≤ env.MaxAllowedSearchHits)
    (hmsgs : ctx.Int "max-messages" ≤ env.MaxAllowedSearchMessages)
    (hpat : env.Compile (if ctx.Bool "regex" then ctx.Args.getD 1 ""
              else env.QuoteMeta (ctx.Args.getD 1 "")) = some e) :
    (ParseArgv env ctx c).err = some e ∧
    (ParseArgv env ctx c).trace =
      [Event.parseConversationResolvingRequest (ctx.Args.getD 0 "")]
        ++ (if ctx.String "sent-before" ≠ "" then [Event.ParseAny (ctx.String "sent-before")] else [])
        ++ (if ctx.String "sent-after" ≠ "" then [Event.ParseAny (ctx.String "sent-after")] else [])
        ++ [Event.Compile (if ctx.Bool "regex" then ctx.Args.getD 1 ""
              else env.QuoteMeta (ctx.Args.getD 1 ""))] := by
  unfold ParseArgv
  generalize ctx.Args.getD 0 "" = tlf at *
  generalize ctx.Args.getD 1 "" = q at *
  have hh : ¬ ctx.Int "max-hits" > env.MaxAllowedSearchHits := not_lt.mpr hhits
  have hm : ¬ ctx.Int "max-messages" > env.MaxAllowedSearchMessages := not_lt.mpr hmsgs
  by_cases hz : ctx.Int "after-context" = 0 ∧ ctx.Int "before-context" = 0 <;>
  cases hr : ctx.Bool "regex" <;>
  simp only [hr, Bool.false_eq_true, if_false, if_true] at hpat <;>
  by_cases hb : ctx.String "sent-before" = "" <;>
  by_cases ha : ctx.String "sent-after" = "" <;>
  first
    | (exfalso; apply hboth; constructor <;> assumption)
    | (rcases hpb : env.ParseAny (ctx.String "sent-before") with ⟨tb, eb⟩
       rcases hpa : env.ParseAny (ctx.String "sent-after") with ⟨ta, ea⟩
       simp only [hpb, hpa, hb, ha, ne_eq, not_true_eq_false, not_false_eq_true,
         true_implies, false_implies] at hbefore hafter
       simp [hargs, hconv, hb, ha, hpb, hpa, hbefore, hafter, hh, hm, hz, hr, hpat])

/-- Every check passes: the calls made, the state stored and the `nil` result. -/
theorem ParseArgv_of_checks (env : ParseEnv) (ctx : Context) (c : CmdChatSearch)
    (hargs : ctx.Args.length = 2)
    (hconv : (env.parseConversationResolvingRequest ctx (ctx.Args.getD 0 "")).2 = none)
    (hboth : ¬ (ctx.String "sent-before" ≠ "" ∧ ctx.String "sent-after" ≠ ""))
    (hbefore : ctx.String "sent-before" ≠ "" → (env.ParseAny (ctx.String "sent-before")).2 = none)
    (hafter : ctx.String "sent-after" ≠ "" → (env.ParseAny (ctx.String "sent-after")).2 = none)
    (hhits : ctx.Int "max-hits" ≤ env.MaxAllowedSearchHits)
    (hmsgs : ctx.Int "max-messages" ≤ env.MaxAllowedSearchMessages)
    (hpat : env.Compile (if ctx.Bool "regex" then ctx.Args.getD 1 ""
              else env.QuoteMeta (ctx.Args.getD 1 "")) = none) :
    ParseArgv env ctx c =
      { trace :=
          [Event.parseConversationResolvingRequest (ctx.Args.getD 0 "")]
            ++ (if ctx.String "sent-before" ≠ "" then [Event.ParseAny (ctx.String "sent-before")] else [])
            ++ (if ctx.String "sent-after" ≠ "" then [Event.ParseAny (ctx.String "sent-after")] else [])
            ++ [Event.Compile (if ctx.Bool "regex" then ctx.Args.getD 1 ""
                  else env.QuoteMeta (ctx.Args.getD 1 "")), Event.IsTerminal]
        cmd :=
          { resolvingRequest := (env.parseConversationResolvingRequest ctx (ctx.Args.getD 0 "")).1
            query := ctx.Args.getD 1 ""
            opts :=
              { SentBy := ctx.String "sent-by"
                SentBefore :=
                  if ctx.String "sent-before" ≠ "" then
                    env.ToTime (env.ParseAny (ctx.String "sent-before")).1
                  else c.opts.SentBefore
                SentAfter :=
                  if ctx.String "sent-after" ≠ "" then
                    env.ToTime (env.ParseAny (ctx.String "sent-after")).1
                  else c.opts.SentAfter
                MaxHits := ctx.Int "max-hits"
                MaxMessages := ctx.Int "max-messages"
                BeforeContext :=
                  if ctx.Int "after-context" = 0 ∧ ctx.Int "before-context" = 0 then ctx.Int "context"
                  else ctx.Int "before-context"
                AfterContext :=
                  if ctx.Int "after-context" = 0 ∧ ctx.Int "before-context" = 0 then ctx.Int "context"
                  else ctx.Int "after-context" }
            isRegex := ctx.Bool "regex"
            hasTTY := env.IsTerminal }
        err := none } := by
  unfold ParseArgv
  generalize ctx.Args.getD 0 "" = tlf at *
  generalize ctx.Args.getD 1 "" = q at *
  have hh : ¬ ctx.Int "max-hits" > env.MaxAllowedSearchHits := not_lt.mpr hhits
  have hm : ¬ ctx.Int "max-messages" > env.MaxAllowedSearchMessages := not_lt.mpr hmsgs
  by_cases hz : ctx.Int "after-context" = 0 ∧ ctx.Int "before-context" = 0 <;>
  cases hr : ctx.Bool "regex" <;>
  simp only [hr, Bool.false_eq_true, if_false, if_true] at hpat <;>
  by_cases hb : ctx.String "sent-before" = "" <;>
  by_cases ha : ctx.String "sent-after" = "" <;>
  first
    | (exfalso; apply hboth; constructor <;> assumption)
    | (rcases hpb : env.ParseAny (ctx.String "sent-before") with ⟨tb, eb⟩
       rcases hpa : env.ParseAny (ctx.String "sent-after") with ⟨ta, ea⟩
       simp only [hpb, hpa, hb, ha, ne_eq, not_true_eq_false, not_false_eq_true,
         true_implies, false_implies] at hbefore hafter
       simp [hargs, hconv, hb, ha, hpb, hpa, hbefore, hafter, hh, hm, hz, hr, hpat])

/-- A `nil` result means that every check passed. -/
theorem ParseArgv_checks_of_ok (env : ParseEnv) (ctx : Context) (c : CmdChatSearch)
    (hok : (ParseArgv env ctx c).err = none) :
    ctx.Args.length = 2 ∧
    (env.parseConversationResolvingRequest ctx (ctx.Args.getD 0 "")).2 = none ∧
    ¬ (ctx.String "sent-before" ≠ "" ∧ ctx.String "sent-after" ≠ "") ∧
    (ctx.String "sent-before" ≠ "" → (env.ParseAny (ctx.String "sent-before")).2 = none) ∧
    (ctx.String "sent-after" ≠ "" → (env.ParseAny (ctx.String "sent-after")).2 = none) ∧
    ctx.Int "max-hits" ≤ env.MaxAllowedSearchHits ∧
    ctx.Int "max-messages" ≤ env.MaxAllowedSearchMessages ∧
    env.Compile (if ctx.Bool "regex" then ctx.Args.getD 1 ""
      else env.QuoteMeta (ctx.Args.getD 1 "")) = none := by
  by_cases hargs : ctx.Args.length = 2
  swap
  · rw [ParseArgv_of_bad_arity env ctx c hargs] at hok
    cases hok
  cases hconv : (env.parseConversationResolvingRequest ctx (ctx.Args.getD 0 "")).2 with
  | some e =>
    rw [ParseArgv_of_bad_reference env ctx c e hargs hconv] at hok
    cases hok
  | none =>
    by_cases hboth : ctx.String "sent-before" ≠ "" ∧ ctx.String "sent-after" ≠ ""
    · rw [ParseArgv_of_two_dates env ctx c hargs hconv hboth.1 hboth.2] at hok
      cases hok
    have hbefore : ctx.String "sent-before" ≠ "" →
        (env.ParseAny (ctx.String "sent-before")).2 = none := by
      intro hb
      have ha : ctx.String "sent-after" = "" := by
        by_contra ha
        exact hboth ⟨hb, ha⟩
      cases hp : (env.ParseAny (ctx.String "sent-before")).2 with
      | none => rfl
      | some e =>
        rw [ParseArgv_of_bad_sent_before env ctx c e hargs hconv hb ha hp] at hok
        cases hok
    have hafter : ctx.String "sent-after" ≠ "" →
        (env.ParseAny (ctx.String "sent-after")).2 = none := by
      intro ha
      have hb : ctx.String "sent-before" = "" := by
        by_contra hb
        exact hboth ⟨hb, ha⟩
      cases hp : (env.ParseAny (ctx.String "sent-after")).2 with
      | none => rfl
      | some e =>
        rw [ParseArgv_of_bad_sent_after env ctx c e hargs hconv hb ha hp] at hok
        cases hok
    by_cases hhits : ctx.Int "max-hits" ≤ env.MaxAllowedSearchHits
    swap
    · rw [ParseArgv_of_max_hits_over env ctx c hargs hconv hboth hbefore hafter
        (not_le.mp hhits)] at hok
      cases hok
    by_cases hmsgs : ctx.Int "max-messages" ≤ env.MaxAllowedSearchMessages
    swap
    · rw [ParseArgv_of_max_messages_over env ctx c hargs hconv hboth hbefore hafter hhits
        (not_le.mp hmsgs)] at hok
      cases hok
    cases hpat : env.Compile (if ctx.Bool "regex" then ctx.Args.getD 1 ""
        else env.QuoteMeta (ctx.Args.getD 1 "")) with
    | some e =>
      rw [(ParseArgv_of_bad_pattern env ctx c e hargs hconv hboth hbefore hafter hhits hmsgs
        hpat).1] at hok
      cases hok
    | none => exact ⟨hargs, rfl, hboth, hbefore, hafter, hhits, hmsgs, rfl⟩

/-! ## The argument parser and the request validator -/

/-- C1: with a number of positional arguments other than 2, `ParseArgv` returns
the usage error whatever the flags are; with exactly 2, a conversation
reference that parses, at most one date filter that parses, caps not over
the limits and an effective pattern that compiles, it returns `nil`. -/
theorem ParseArgv_arity (env : ParseEnv) (ctx : Context) (c : CmdChatSearch) :
    (ctx.Args.length ≠ 2 → (ParseArgv env ctx c).err = some usageError) ∧
    (ctx.Args.length = 2 →
      (env.parseConversationResolvingRequest ctx (ctx.Args.getD 0 "")).2 = none →
      ¬ (ctx.String "sent-before" ≠ "" ∧ ctx.String "sent-after" ≠ "") →
      (ctx.String "sent-before" ≠ "" → (env.ParseAny (ctx.String "sent-before")).2 = none) →
      (ctx.String "sent-after" ≠ "" → (env.ParseAny (ctx.String "sent-after")).2 = none) →
      ctx.Int "max-hits" ≤ env.MaxAllowedSearchHits →
      ctx.Int "max-messages" ≤ env.MaxAllowedSearchMessages →
      env.Compile (if ctx.Bool "regex" then ctx.Args.getD 1 ""
        else env.QuoteMeta (ctx.Args.getD 1 "")) = none →
      (ParseArgv env ctx c).err = none) := by
  constructor
  · intro hargs
    rw [ParseArgv_of_bad_arity env ctx c hargs]
  · intro hargs hconv hboth hbefore hafter hhits hmsgs hpat
    rw [ParseArgv_of_checks env ctx c hargs hconv hboth hbefore hafter hhits hmsgs hpat]

/-- C1 at `keybase chat search alice` (one argument) and at
`keybase chat search alice a.b` (two arguments, default flags). -/
theorem ParseArgv_arity_witness :
    (ParseArgv sampleParseEnv oneArgContext NewCmdChatSearchRunner).err = some usageError ∧
    (ParseArgv sampleParseEnv literalContext NewCmdChatSearchRunner).err = none :=
  ⟨(ParseArgv_arity sampleParseEnv oneArgContext NewCmdChatSearchRunner).1 (by decide),
   (ParseArgv_arity sampleParseEnv literalContext NewCmdChatSearchRunner).2
     (by decide) (by decide) (by decide) (by decide) (by decide) (by decide) (by decide)
     (by decide)⟩

/-- C2: with two positional arguments and a conversation reference that parses,
two non-empty date filters make `ParseArgv` return the conflicting-filter
error, whatever the two strings and the other flags are. -/
theorem ParseArgv_conflicting_filters (env : ParseEnv) (ctx : Context) (c : CmdChatSearch)
    (hargs : ctx.Args.length = 2)
    (hconv : (env.parseConversationResolvingRequest ctx (ctx.Args.getD 0 "")).2 = none)
    (hb : ctx.String "sent-before" ≠ "") (ha : ctx.String "sent-after" ≠ "") :
    (ParseArgv env ctx c).err = some onlyOneDateError :=
  ParseArgv_of_two_dates env ctx c hargs hconv hb ha

/-- C2 at an invocation whose sent-before does not parse, whose max-hits is over
the limit and whose pattern is unbalanced. -/
theorem ParseArgv_conflicting_filters_witness :
    (sampleParseEnv.ParseAny (conflictContext.String "sent-before")).2 ≠ none ∧
    conflictContext.Int "max-hits" > sampleParseEnv.MaxAllowedSearchHits ∧
    sampleParseEnv.Compile (conflictContext.Args.getD 1 "") ≠ none ∧
    (ParseArgv sampleParseEnv conflictContext NewCmdChatSearchRunner).err
      = some onlyOneDateError :=
  ⟨by decide, by decide, by decide,
   ParseArgv_conflicting_filters sampleParseEnv conflictContext NewCmdChatSearchRunner
     (by decide) (by decide) (by decide) (by decide)⟩

/-- C3: when every check other than the max-hits one passes, a max-hits of
`MaxAllowedSearchHits + 1` or more makes `ParseArgv` return the max-hits
limit error, and a max-hits of `MaxAllowedSearchHits` makes it return `nil`
with that value stored in `MaxHits`. -/
theorem ParseArgv_max_hits_boundary (env : ParseEnv) (ctx : Context) (c : CmdChatSearch)
    (hargs : ctx.Args.length = 2)
    (hconv : (env.parseConversationResolvingRequest ctx (ctx.Args.getD 0 "")).2 = none)
    (hboth : ¬ (ctx.String "sent-before" ≠ "" ∧ ctx.String "sent-after" ≠ ""))
    (hbefore : ctx.String "sent-before" ≠ "" → (env.ParseAny (ctx.String "sent-before")).2 = none)
    (hafter : ctx.String "sent-after" ≠ "" → (env.ParseAny (ctx.String "sent-after")).2 = none)
    (hmsgs : ctx.Int "max-messages" ≤ env.MaxAllowedSearchMessages)
    (hpat : env.Compile (if ctx.Bool "regex" then ctx.Args.getD 1 ""
              else env.QuoteMeta (ctx.Args.getD 1 "")) = none) :
    (env.MaxAllowedSearchHits + 1 ≤ ctx.Int "max-hits" →
      (ParseArgv env ctx c).err = some (maxHitsError env.MaxAllowedSearchHits)) ∧
    (ctx.Int "max-hits" = env.MaxAllowedSearchHits →
      (ParseArgv env ctx c).err = none ∧
      (ParseArgv env ctx c).cmd.opts.MaxHits = env.MaxAllowedSearchHits) := by
  constructor
  · intro hover
    exact ParseArgv_of_max_hits_over env ctx c hargs hconv hboth hbefore hafter
      (Int.lt_of_add_one_le hover)
  · intro hat
    rw [ParseArgv_of_checks env ctx c hargs hconv hboth hbefore hafter (le_of_eq hat) hmsgs hpat]
    exact ⟨rfl, hat⟩

/-- C3 at max-hits 10001 and max-hits 10000 with the limit 10000. -/
theorem ParseArgv_max_hits_boundary_witness :
    (ParseArgv sampleParseEnv (maxHitsContext 10001) NewCmdChatSearchRunner).err
      = some (maxHitsError 10000) ∧
    (ParseArgv sampleParseEnv (maxHitsContext 10000) NewCmdChatSearchRunner).err = none ∧
    (ParseArgv sampleParseEnv (maxHitsContext 10000) NewCmdChatSearchRunner).cmd.opts.MaxHits
      = 10000 :=
  ⟨(ParseArgv_max_hits_boundary sampleParseEnv (maxHitsContext 10001) NewCmdChatSearchRunner
      (by decide) (by decide) (by decide) (by decide) (by decide) (by decide) (by decide)).1
      (by decide),
   (ParseArgv_max_hits_boundary sampleParseEnv (maxHitsContext 10000) NewCmdChatSearchRunner
      (by decide) (by decide) (by decide) (by decide) (by decide) (by decide) (by decide)).2
      (by decide)⟩

/-- C4, as the code has it: on every input on which `ParseArgv` returns `nil`,
`MaxHits` and `MaxMessages` hold the values of the two flags and are not over
`MaxAllowedSearchHits` and `MaxAllowedSearchMessages`.  There is no lower
bound. -/
theorem ParseArgv_caps_upper_bound (env : ParseEnv) (ctx : Context) (c : CmdChatSearch)
    (hok : (ParseArgv env ctx c).err = none) :
    (ParseArgv env ctx c).cmd.opts.MaxHits = ctx.Int "max-hits" ∧
    (ParseArgv env ctx c).cmd.opts.MaxHits ≤ env.MaxAllowedSearchHits ∧
    (ParseArgv env ctx c).cmd.opts.MaxMessages = ctx.Int "max-messages" ∧
    (ParseArgv env ctx c).cmd.opts.MaxMessages ≤ env.MaxAllowedSearchMessages := by
  obtain ⟨hargs, hconv, hboth, hbefore, hafter, hhits, hmsgs, hpat⟩ :=
    ParseArgv_checks_of_ok env ctx c hok
  rw [ParseArgv_of_checks env ctx c hargs hconv hboth hbefore hafter hhits hmsgs hpat]
  exact ⟨rfl, hhits, rfl, hmsgs⟩

/-- C4 as amended, at the default caps 10 and 10000. -/
theorem ParseArgv_caps_upper_bound_witness :
    (ParseArgv sampleParseEnv literalContext NewCmdChatSearchRunner).cmd.opts.MaxHits = 10 ∧
    (ParseArgv sampleParseEnv literalContext NewCmdChatSearchRunner).cmd.opts.MaxHits ≤ 10000 ∧
    (ParseArgv sampleParseEnv literalContext NewCmdChatSearchRunner).cmd.opts.MaxMessages
      = 10000 ∧
    (ParseArgv sampleParseEnv literalContext NewCmdChatSearchRunner).cmd.opts.MaxMessages
      ≤ 100000 :=
  ParseArgv_caps_upper_bound sampleParseEnv literalContext NewCmdChatSearchRunner (by decide)

/-- C4 as stated fails: with `--max-hits 0 --max-messages -1` the call returns
`nil` and stores 0 and -1, both below 1. -/
theorem ParseArgv_caps_lower_bound_counterexample :
    (ParseArgv sampleParseEnv capsBelowOneContext NewCmdChatSearchRunner).err = none ∧
    (ParseArgv sampleParseEnv capsBelowOneContext NewCmdChatSearchRunner).cmd.opts.MaxHits = 0 ∧
    (ParseArgv sampleParseEnv capsBelowOneContext NewCmdChatSearchRunner).cmd.opts.MaxMessages
      = -1 ∧
    ¬ (1 ≤ (ParseArgv sampleParseEnv capsBelowOneContext NewCmdChatSearchRunner).cmd.opts.MaxHits) ∧
    ¬ (1 ≤ (ParseArgv sampleParseEnv capsBelowOneContext
              NewCmdChatSearchRunner).cmd.opts.MaxMessages) := by
  decide

/-- C5: on every input on which `ParseArgv` returns `nil` with before-context 0
and after-context 0, `BeforeContext` and `AfterContext` both hold the value
of the context flag. -/
theorem ParseArgv_symmetric_context (env : ParseEnv) (ctx : Context) (c : CmdChatSearch)
    (hok : (ParseArgv env ctx c).err = none)
    (hb : ctx.Int "before-context" = 0) (ha : ctx.Int "after-context" = 0) :
    (ParseArgv env ctx c).cmd.opts.BeforeContext = ctx.Int "context" ∧
    (ParseArgv env ctx c).cmd.opts.AfterContext = ctx.Int "context" := by
  obtain ⟨hargs, hconv, hboth, hbefore, hafter, hhits, hmsgs, hpat⟩ :=
    ParseArgv_checks_of_ok env ctx c hok
  rw [ParseArgv_of_checks env ctx c hargs hconv hboth hbefore hafter hhits hmsgs hpat]
  simp [hb, ha]

/-- C5 at context 5. -/
theorem ParseArgv_symmetric_context_witness :
    symmetricContext.Int "context" = 5 ∧
    (ParseArgv sampleParseEnv symmetricContext NewCmdChatSearchRunner).cmd.opts.BeforeContext
      = 5 ∧
    (ParseArgv sampleParseEnv symmetricContext NewCmdChatSearchRunner).cmd.opts.AfterContext
      = 5 :=
  ⟨by decide,
   ParseArgv_symmetric_context sampleParseEnv symmetricContext NewCmdChatSearchRunner
     (by decide) (by decide) (by decide)⟩

/-- C6: on every input on which `ParseArgv` returns `nil` with before-context or
after-context other than 0, `BeforeContext` and `AfterContext` hold the
values of these two flags, whatever the context flag is. -/
theorem ParseArgv_explicit_context (env : ParseEnv) (ctx : Context) (c : CmdChatSearch)
    (hok : (ParseArgv env ctx c).err = none)
    (hne : ctx.Int "before-context" ≠ 0 ∨ ctx.Int "after-context" ≠ 0) :
    (ParseArgv env ctx c).cmd.opts.BeforeContext = ctx.Int "before-context" ∧
    (ParseArgv env ctx c).cmd.opts.AfterContext = ctx.Int "after-context" := by
  obtain ⟨hargs, hconv, hboth, hbefore, hafter, hhits, hmsgs, hpat⟩ :=
    ParseArgv_checks_of_ok env ctx c hok
  rw [ParseArgv_of_checks env ctx c hargs hconv hboth hbefore hafter hhits hmsgs hpat]
  have hz : ¬ (ctx.Int "after-context" = 0 ∧ ctx.Int "before-context" = 0) := by
    intro h
    rcases hne with h1 | h1
    · exact h1 h.2
    · exact h1 h.1
  simp [hz]

/-- C6 at before-context 3, after-context 0 and context 2. -/
theorem ParseArgv_explicit_context_witness :
    beforeOnlyContext.Int "context" = 2 ∧
    (ParseArgv sampleParseEnv beforeOnlyContext NewCmdChatSearchRunner).cmd.opts.BeforeContext
      = 3 ∧
    (ParseArgv sampleParseEnv beforeOnlyContext NewCmdChatSearchRunner).cmd.opts.AfterContext
      = 0 :=
  ⟨by decide,
   ParseArgv_explicit_context sampleParseEnv beforeOnlyContext NewCmdChatSearchRunner
     (by decide) (Or.inl (by decide))⟩

/-! ## `Run`, one path at a time -/

/-- The protocol registration fails: its error is returned at once. -/
theorem Run_of_registration_error (env : RunEnv) (c : CmdChatSearch) (e : Error)
    (hreg : env.RegisterProtocolsWithContext = some e) :
    Run env c = { trace := [Event.RegisterProtocolsWithContext], cmd := c, err := some e } := by
  unfold Run
  simp only [hreg]

/-- The annotation fails: its error is returned. -/
theorem Run_of_annotation_error (env : RunEnv) (c : CmdChatSearch) (e : Error)
    (hreg : env.RegisterProtocolsWithContext = none)
    (htlf : c.resolvingRequest.TlfName ≠ "")
    (hann : (env.annotateResolvingRequest c.resolvingRequest).2 = some e) :
    Run env c = { trace := gateTrace c, cmd := gateCmd env c, err := some e } := by
  unfold Run gateTrace gateCmd
  simp [hreg, htlf, hann]

/-- Standalone mode with a membership type outside the three team types. -/
theorem Run_of_gate_blocked (env : RunEnv) (c : CmdChatSearch)
    (hreg : env.RegisterProtocolsWithContext = none)
    (hann : c.resolvingRequest.TlfName ≠ "" →
      (env.annotateResolvingRequest c.resolvingRequest).2 = none)
    (hs : env.Standalone = true)
    (h1 : gateMembersType env c ≠ ConversationMembersType.TEAM)
    (h2 : gateMembersType env c ≠ ConversationMembersType.IMPTEAMNATIVE)
    (h3 : gateMembersType env c ≠ ConversationMembersType.IMPTEAMUPGRADE) :
    Run env c =
      { trace := gateTrace c, cmd := gateCmd env c,
        err := some Error.CantRunInStandaloneError } := by
  unfold Run gateTrace gateCmd
  unfold gateMembersType at h1 h2 h3
  by_cases htlf : c.resolvingRequest.TlfName = ""
  · simp only [htlf, ne_eq, not_true_eq_false, if_false] at h1 h2 h3
    cases hm : c.resolvingRequest.MembersType <;> simp_all
  · have hann2 := hann htlf
    simp only [htlf, ne_eq, not_false_eq_true, if_true] at h1 h2 h3
    cases hm : (env.annotateResolvingRequest c.resolvingRequest).1.MembersType <;> simp_all

/-- Standalone mode with one of the three team types. -/
theorem Run_of_gate_team (env : RunEnv) (c : CmdChatSearch)
    (hreg : env.RegisterProtocolsWithContext = none)
    (hann : c.resolvingRequest.TlfName ≠ "" →
      (env.annotateResolvingRequest c.resolvingRequest).2 = none)
    (hs : env.Standalone = true)
    (hteam : gateMembersType env c = ConversationMembersType.TEAM ∨
      gateMembersType env c = ConversationMembersType.IMPTEAMNATIVE ∨
      gateMembersType env c = ConversationMembersType.IMPTEAMUPGRADE) :
    Run env c =
      resolveAndSearch env (gateTrace c ++ [Event.StartStandaloneChat]) (gateCmd env c) := by
  unfold Run gateTrace gateCmd resolveAndSearch
  unfold gateMembersType at hteam
  by_cases htlf : c.resolvingRequest.TlfName = ""
  · simp only [htlf, ne_eq, not_true_eq_false, if_false] at hteam
    rcases hteam with hm | hm | hm <;> simp [hreg, htlf, hs, hm]
  · have hann2 := hann htlf
    simp only [htlf, ne_eq, not_false_eq_true, if_true] at hteam
    rcases hteam with hm | hm | hm <;> simp [hreg, htlf, hs, hm, hann2]

/-- Networked mode: the `switch` is skipped. -/
theorem Run_of_networked (env : RunEnv) (c : CmdChatSearch)
    (hreg : env.RegisterProtocolsWithContext = none)
    (hann : c.resolvingRequest.TlfName ≠ "" →
      (env.annotateResolvingRequest c.resolvingRequest).2 = none)
    (hs : env.Standalone = false) :
    Run env c = resolveAndSearch env (gateTrace c) (gateCmd env c) := by
  unfold Run gateTrace gateCmd resolveAndSearch
  by_cases htlf : c.resolvingRequest.TlfName = ""
  · simp [hreg, htlf, hs]
  · have hann2 := hann htlf
    simp [hreg, htlf, hs, hann2]

/-- The calls of `resolveAndSearch`: the resolver is created first; what follows
never starts standalone chat, and a search call carries the stored query,
regex flag and options. -/
theorem resolveAndSearch_trace (env : RunEnv) (t : List Event) (c : CmdChatSearch) :
    ∃ rest, (resolveAndSearch env t c).trace = t ++ Event.newChatConversationResolver :: rest ∧
      Event.StartStandaloneChat ∉ rest ∧
      ∀ arg, Event.GetSearchRegexp arg ∈ rest →
        arg.Query = c.query ∧ arg.IsRegex = c.isRegex ∧ arg.Opts = c.opts := by
  unfold resolveAndSearch
  cases hnew : env.newChatConversationResolver with
  | some e => exact ⟨[], by simp, by simp, by simp⟩
  | none =>
    rcases hres : env.Resolve c.resolvingRequest
      { CreateIfNotExists := false, MustNotExist := false, Interactive := c.hasTTY }
      with ⟨id, _ | e⟩
    · refine ⟨[Event.Resolve c.resolvingRequest
          { CreateIfNotExists := false, MustNotExist := false, Interactive := c.hasTTY },
        Event.GetSearchRegexp
          { ConvID := id, Query := c.query, IsRegex := c.isRegex, Opts := c.opts }], ?_, ?_, ?_⟩
      · simp [hres]
      · simp
      · intro arg harg
        simp at harg
        subst harg
        exact ⟨rfl, rfl, rfl⟩
    · refine ⟨[Event.Resolve c.resolvingRequest
          { CreateIfNotExists := false, MustNotExist := false, Interactive := c.hasTTY }],
        ?_, ?_, ?_⟩
      · simp [hres]
      · simp
      · simp

/-- The calls before the `switch` are the registration and the annotation. -/
theorem mem_gateTrace (c : CmdChatSearch) (ev : Event) (h : ev ∈ gateTrace c) :
    ev = Event.RegisterProtocolsWithContext ∨
    ev = Event.annotateResolvingRequest c.resolvingRequest := by
  unfold gateTrace at h
  by_cases htlf : c.resolvingRequest.TlfName = "" <;> simp [htlf] at h
  · exact Or.inl h
  · exact h

/-- The annotation leaves the query, the regex flag and the options alone. -/
theorem gateCmd_fields (env : RunEnv) (c : CmdChatSearch) :
    (gateCmd env c).query = c.query ∧ (gateCmd env c).isRegex = c.isRegex ∧
    (gateCmd env c).opts = c.opts := by
  unfold gateCmd
  by_cases htlf : c.resolvingRequest.TlfName = "" <;> simp [htlf]

/-- Every search call of `Run` carries the stored query, regex flag and options. -/
theorem Run_search_arg (env : RunEnv) (c : CmdChatSearch) (arg : GetSearchRegexpArg)
    (h : Event.GetSearchRegexp arg ∈ (Run env c).trace) :
    arg.Query = c.query ∧ arg.IsRegex = c.isRegex ∧ arg.Opts = c.opts := by
  have hgate : Event.GetSearchRegexp arg ∉ gateTrace c := by
    intro hmem
    rcases mem_gateTrace c _ hmem with h0 | h0 <;> cases h0
  have htail : ∀ t, Event.GetSearchRegexp arg ∉ t →
      Event.GetSearchRegexp arg ∈ (resolveAndSearch env t (gateCmd env c)).trace →
      arg.Query = c.query ∧ arg.IsRegex = c.isRegex ∧ arg.Opts = c.opts := by
    intro t ht hmem
    obtain ⟨rest, htrace, -, hargs⟩ := resolveAndSearch_trace env t (gateCmd env c)
    rw [htrace] at hmem
    obtain ⟨hq, hr, ho⟩ := gateCmd_fields env c
    rw [← hq, ← hr, ← ho]
    apply hargs
    simpa [ht] using hmem
  cases hreg : env.RegisterProtocolsWithContext with
  | some e =>
    rw [Run_of_registration_error env c e hreg] at h
    simp at h
  | none =>
    by_cases hann : c.resolvingRequest.TlfName ≠ "" →
        (env.annotateResolvingRequest c.resolvingRequest).2 = none
    · cases hs : env.Standalone with
      | false =>
        rw [Run_of_networked env c hreg hann hs] at h
        exact htail _ hgate h
      | true =>
        by_cases hteam : gateMembersType env c = ConversationMembersType.TEAM ∨
            gateMembersType env c = ConversationMembersType.IMPTEAMNATIVE ∨
            gateMembersType env c = ConversationMembersType.IMPTEAMUPGRADE
        · rw [Run_of_gate_team env c hreg hann hs hteam] at h
          exact htail _ (by simpa using hgate) h
        · rw [Run_of_gate_blocked env c hreg hann hs (fun h0 => hteam (Or.inl h0))
            (fun h0 => hteam (Or.inr (Or.inl h0)))
            (fun h0 => hteam (Or.inr (Or.inr h0)))] at h
          exact absurd h hgate
    · have htlf : c.resolvingRequest.TlfName ≠ "" := fun h0 => hann (fun h1 => absurd h0 h1)
      cases he : (env.annotateResolvingRequest c.resolvingRequest).2 with
      | none => exact absurd (fun _ => he) hann
      | some e =>
        rw [Run_of_annotation_error env c e hreg htlf he] at h
        exact absurd h hgate

/-! ## The pattern check -/

/-- C7: on every input on which `ParseArgv` returns `nil` with regex false, the
stored query is the second positional argument as given, the stored regex
flag is false, the one string handed to the pattern compiler is `QuoteMeta`
of that argument, and every search call of a later `Run` carries the
argument as given with `IsRegex` false. -/
theorem ParseArgv_literal_query_unescaped (env : ParseEnv) (ctx : Context) (c : CmdChatSearch)
    (hok : (ParseArgv env ctx c).err = none) (hregex : ctx.Bool "regex" = false) :
    (ParseArgv env ctx c).cmd.query = ctx.Args.getD 1 "" ∧
    (ParseArgv env ctx c).cmd.isRegex = false ∧
    (∀ p, Event.Compile p ∈ (ParseArgv env ctx c).trace ↔
      p = env.QuoteMeta (ctx.Args.getD 1 "")) ∧
    (∀ (renv : RunEnv) (arg : GetSearchRegexpArg),
      Event.GetSearchRegexp arg ∈ (Run renv (ParseArgv env ctx c).cmd).trace →
      arg.Query = ctx.Args.getD 1 "" ∧ arg.IsRegex = false) := by
  obtain ⟨hargs, hconv, hboth, hbefore, hafter, hhits, hmsgs, hpat⟩ :=
    ParseArgv_checks_of_ok env ctx c hok
  have hq : (ParseArgv env ctx c).cmd.query = ctx.Args.getD 1 "" := by
    rw [ParseArgv_of_checks env ctx c hargs hconv hboth hbefore hafter hhits hmsgs hpat]
  have hr : (ParseArgv env ctx c).cmd.isRegex = false := by
    rw [ParseArgv_of_checks env ctx c hargs hconv hboth hbefore hafter hhits hmsgs hpat]
    exact hregex
  refine ⟨hq, hr, ?_, ?_⟩
  · intro p
    rw [ParseArgv_of_checks env ctx c hargs hconv hboth hbefore hafter hhits hmsgs hpat]
    by_cases hb : ctx.String "sent-before" = "" <;>
    by_cases ha : ctx.String "sent-after" = "" <;>
    simp [hb, ha, hregex]
  · intro renv arg hmem
    obtain ⟨h1, h2, -⟩ := Run_search_arg renv _ arg hmem
    rw [h1, h2]
    exact ⟨hq, hr⟩

/-- C7 at the query `a.b`: stored as `a.b`, checked as `a\.b`, sent as `a.b`. -/
theorem ParseArgv_literal_query_unescaped_witness :
    (ParseArgv sampleParseEnv literalContext NewCmdChatSearchRunner).cmd.query = "a.b" ∧
    (ParseArgv sampleParseEnv literalContext NewCmdChatSearchRunner).cmd.isRegex = false ∧
    Event.Compile "a\\.b" ∈ (ParseArgv sampleParseEnv literalContext NewCmdChatSearchRunner).trace ∧
    Event.Compile "a.b" ∉ (ParseArgv sampleParseEnv literalContext NewCmdChatSearchRunner).trace ∧
    Event.GetSearchRegexp
        { ConvID := 7, Query := "a.b", IsRegex := false,
          Opts := (ParseArgv sampleParseEnv literalContext NewCmdChatSearchRunner).cmd.opts }
      ∈ (Run (sampleRunEnv false)
          (ParseArgv sampleParseEnv literalContext NewCmdChatSearchRunner).cmd).trace ∧
    (∀ arg, Event.GetSearchRegexp arg
      ∈ (Run (sampleRunEnv false)
          (ParseArgv sampleParseEnv literalContext NewCmdChatSearchRunner).cmd).trace →
      arg.Query = "a.b" ∧ arg.IsRegex = false) :=
  have h := ParseArgv_literal_query_unescaped sampleParseEnv literalContext
    NewCmdChatSearchRunner (by decide) (by decide)
  ⟨h.1, h.2.1, (h.2.2.1 _).mpr (by decide),
   fun hmem => absurd ((h.2.2.1 _).mp hmem) (by decide),
   by decide, fun arg => h.2.2.2 (sampleRunEnv false) arg⟩

/-- C8: when every check before the pattern passes, regex is true and the
compiler rejects the query, `ParseArgv` returns the compiler error, and the
one string handed to the compiler is the query as given. -/
theorem ParseArgv_invalid_regex (env : ParseEnv) (ctx : Context) (c : CmdChatSearch) (e : Error)
    (hargs : ctx.Args.length = 2)
    (hconv : (env.parseConversationResolvingRequest ctx (ctx.Args.getD 0 "")).2 = none)
    (hboth : ¬ (ctx.String "sent-before" ≠ "" ∧ ctx.String "sent-after" ≠ ""))
    (hbefore : ctx.String "sent-before" ≠ "" → (env.ParseAny (ctx.String "sent-before")).2 = none)
    (hafter : ctx.String "sent-after" ≠ "" → (env.ParseAny (ctx.String "sent-after")).2 = none)
    (hhits : ctx.Int "max-hits" ≤ env.MaxAllowedSearchHits)
    (hmsgs : ctx.Int "max-messages" ≤ env.MaxAllowedSearchMessages)
    (hregex : ctx.Bool "regex" = true)
    (hbad : env.Compile (ctx.Args.getD 1 "") = some e) :
    (ParseArgv env ctx c).err = some e ∧
    (∀ p, Event.Compile p ∈ (ParseArgv env ctx c).trace ↔ p = ctx.Args.getD 1 "") := by
  have hpat : env.Compile (if ctx.Bool "regex" then ctx.Args.getD 1 ""
      else env.QuoteMeta (ctx.Args.getD 1 "")) = some e := by
    rw [hregex]
    exact hbad
  obtain ⟨herr, htrace⟩ :=
    ParseArgv_of_bad_pattern env ctx c e hargs hconv hboth hbefore hafter hhits hmsgs hpat
  refine ⟨herr, ?_⟩
  intro p
  rw [htrace]
  by_cases hb : ctx.String "sent-before" = "" <;>
  by_cases ha : ctx.String "sent-after" = "" <;>
  simp [hb, ha, hregex]

/-- C8 at `keybase chat search -r alice "("`. -/
theorem ParseArgv_invalid_regex_witness :
    (ParseArgv sampleParseEnv badRegexContext NewCmdChatSearchRunner).err
      = sampleParseEnv.Compile "(" ∧
    sampleParseEnv.Compile "(" ≠ none ∧
    (∀ p, Event.Compile p ∈ (ParseArgv sampleParseEnv badRegexContext
      NewCmdChatSearchRunner).trace ↔ p = "(") :=
  have h := ParseArgv_invalid_regex sampleParseEnv badRegexContext NewCmdChatSearchRunner
    (Error.foreign 3) (by decide) (by decide) (by decide) (by decide) (by decide) (by decide)
    (by decide) (by decide) (by decide)
  ⟨h.1, by decide, h.2⟩

/-! ## The execution gate -/

/-- C9, as the code has it: in standalone mode, when the membership type read
by the `switch` is none of `TEAM`, `IMPTEAMNATIVE`, `IMPTEAMUPGRADE`, `Run`
returns an error and calls nothing but the protocol registration and the
annotation, so neither the resolver, nor the search client, nor
`StartStandaloneChat`.  When the registration fails, its error is returned
after that one call; when the registration succeeds and the annotation
fails, the annotation error is returned after these two calls; when both
succeed, the error is `CantRunInStandaloneError` and the calls made are
exactly the registration, followed by the annotation when `TlfName` is not
empty. -/
theorem Run_standalone_blocked (env : RunEnv) (c : CmdChatSearch)
    (hs : env.Standalone = true)
    (h1 : gateMembersType env c ≠ ConversationMembersType.TEAM)
    (h2 : gateMembersType env c ≠ ConversationMembersType.IMPTEAMNATIVE)
    (h3 : gateMembersType env c ≠ ConversationMembersType.IMPTEAMUPGRADE) :
    (Run env c).err ≠ none ∧
    (∀ ev ∈ (Run env c).trace,
      ev = Event.RegisterProtocolsWithContext ∨
      ev = Event.annotateResolvingRequest c.resolvingRequest) ∧
    (env.RegisterProtocolsWithContext = none →
      (c.resolvingRequest.TlfName ≠ "" →
        (env.annotateResolvingRequest c.resolvingRequest).2 = none) →
      (Run env c).err = some Error.CantRunInStandaloneError ∧
      (Run env c).trace =
        Event.RegisterProtocolsWithContext ::
          (if c.resolvingRequest.TlfName ≠ "" then
            [Event.annotateResolvingRequest c.resolvingRequest]
          else [])) ∧
    (∀ e, env.RegisterProtocolsWithContext = some e →
      (Run env c).err = some e ∧
      (Run env c).trace = [Event.RegisterProtocolsWithContext]) ∧
    (∀ e, env.RegisterProtocolsWithContext = none →
      c.resolvingRequest.TlfName ≠ "" →
      (env.annotateResolvingRequest c.resolvingRequest).2 = some e →
      (Run env c).err = some e ∧
      (Run env c).trace =
        [Event.RegisterProtocolsWithContext,
         Event.annotateResolvingRequest c.resolvingRequest]) := by
  cases hreg : env.RegisterProtocolsWithContext with
  | some e =>
    rw [Run_of_registration_error env c e hreg]
    refine ⟨by simp, by simp, (fun h => by cases h), ?_, (fun _ h => by cases h)⟩
    intro e2 he2
    cases he2
    exact ⟨rfl, rfl⟩
  | none =>
    by_cases hann : c.resolvingRequest.TlfName ≠ "" →
        (env.annotateResolvingRequest c.resolvingRequest).2 = none
    · rw [Run_of_gate_blocked env c hreg hann hs h1 h2 h3]
      refine ⟨by simp, fun ev hev => mem_gateTrace c ev hev, fun _ _ => ⟨rfl, rfl⟩,
        (fun _ h => by cases h), ?_⟩
      intro e2 _ htlf he2
      rw [hann htlf] at he2
      cases he2
    · have htlf : c.resolvingRequest.TlfName ≠ "" := fun h0 => hann (fun h4 => absurd h0 h4)
      cases he : (env.annotateResolvingRequest c.resolvingRequest).2 with
      | none => exact absurd (fun _ => he) hann
      | some e =>
        rw [Run_of_annotation_error env c e hreg htlf he]
        refine ⟨by simp, fun ev hev => mem_gateTrace c ev hev,
          (fun _ h5 => by cases h5 htlf), (fun _ h => by cases h), ?_⟩
        intro e2 _ _ he2
        cases he2
        refine ⟨rfl, ?_⟩
        unfold gateTrace
        rw [if_pos htlf]

/-- C9 as amended, at three standalone runs on the one-to-one conversation
`alice`: with every collaborator succeeding, with a failing registration and
with a failing annotation. -/
theorem Run_standalone_blocked_witness :
    ((Run (sampleRunEnv true) (sampleCmd "alice" (ConversationMembersType.other 0))).err
        = some Error.CantRunInStandaloneError ∧
      (Run (sampleRunEnv true) (sampleCmd "alice" (ConversationMembersType.other 0))).trace
        = [Event.RegisterProtocolsWithContext,
           Event.annotateResolvingRequest
             { TlfName := "alice", MembersType := ConversationMembersType.other 0,
               rest := 0 }]) ∧
    ((Run failingRegistrationEnv (sampleCmd "alice" (ConversationMembersType.other 0))).err
        = some (Error.foreign 4) ∧
      (Run failingRegistrationEnv (sampleCmd "alice" (ConversationMembersType.other 0))).trace
        = [Event.RegisterProtocolsWithContext]) ∧
    ((Run failingAnnotationEnv (sampleCmd "alice" (ConversationMembersType.other 0))).err
        = some (Error.foreign 6) ∧
      (Run failingAnnotationEnv (sampleCmd "alice" (ConversationMembersType.other 0))).trace
        = [Event.RegisterProtocolsWithContext,
           Event.annotateResolvingRequest
             { TlfName := "alice", MembersType := ConversationMembersType.other 0,
               rest := 0 }]) :=
  ⟨(Run_standalone_blocked (sampleRunEnv true)
      (sampleCmd "alice" (ConversationMembersType.other 0))
      (by decide) (by decide) (by decide) (by decide)).2.2.1 (by decide) (by decide),
   (Run_standalone_blocked failingRegistrationEnv
      (sampleCmd "alice" (ConversationMembersType.other 0))
      (by decide) (by decide) (by decide) (by decide)).2.2.2.1 _ (by decide),
   (Run_standalone_blocked failingAnnotationEnv
      (sampleCmd "alice" (ConversationMembersType.other 0))
      (by decide) (by decide) (by decide) (by decide)).2.2.2.2 _ (by decide) (by decide)
      (by decide)⟩

/-- C9 as stated fails: a standalone run on a one-to-one conversation returns
`CantRunInStandaloneError` only after it has registered the protocols and
called `annotateResolvingRequest`; and when the registration fails, the error
returned is the registration error. -/
theorem Run_standalone_blocked_counterexample :
    (sampleRunEnv true).Standalone = true ∧
    (Run (sampleRunEnv true) (sampleCmd "bob" (ConversationMembersType.other 0))).err
      = some Error.CantRunInStandaloneError ∧
    (Run (sampleRunEnv true) (sampleCmd "bob" (ConversationMembersType.other 0))).trace
      = [Event.RegisterProtocolsWithContext,
         Event.annotateResolvingRequest
           { TlfName := "bob", MembersType := ConversationMembersType.other 0, rest := 0 }] ∧
    (Run (sampleRunEnv true) (sampleCmd "bob" (ConversationMembersType.other 0))).trace ≠ [] ∧
    failingRegistrationEnv.Standalone = true ∧
    (Run failingRegistrationEnv (sampleCmd "bob" (ConversationMembersType.other 0))).err
      = some (Error.foreign 4) ∧
    (Run failingRegistrationEnv (sampleCmd "bob" (ConversationMembersType.other 0))).err
      ≠ some Error.CantRunInStandaloneError := by
  decide

/-- C10, as the code has it: in standalone mode, when the registration and the
annotation succeed and the membership type read by the `switch` is `TEAM`,
`IMPTEAMNATIVE` or `IMPTEAMUPGRADE`, `StartStandaloneChat` is called exactly
once, after calls that are not resolver calls, and the next call is the
creation of the resolver. -/
theorem Run_standalone_team_start_once (env : RunEnv) (c : CmdChatSearch)
    (hreg : env.RegisterProtocolsWithContext = none)
    (hann : c.resolvingRequest.TlfName ≠ "" →
      (env.annotateResolvingRequest c.resolvingRequest).2 = none)
    (hs : env.Standalone = true)
    (hteam : gateMembersType env c = ConversationMembersType.TEAM ∨
      gateMembersType env c = ConversationMembersType.IMPTEAMNATIVE ∨
      gateMembersType env c = ConversationMembersType.IMPTEAMUPGRADE) :
    (Run env c).trace.count Event.StartStandaloneChat = 1 ∧
    ∃ pre post, (Run env c).trace = pre ++ Event.StartStandaloneChat :: post ∧
      Event.StartStandaloneChat ∉ pre ∧ Event.StartStandaloneChat ∉ post ∧
      (∀ ev ∈ pre, ev.isResolver = false) ∧
      post.head? = some Event.newChatConversationResolver := by
  rw [Run_of_gate_team env c hreg hann hs hteam]
  obtain ⟨rest, htrace, hrest, -⟩ :=
    resolveAndSearch_trace env (gateTrace c ++ [Event.StartStandaloneChat]) (gateCmd env c)
  have hpre : Event.StartStandaloneChat ∉ gateTrace c := by
    intro hmem
    rcases mem_gateTrace c _ hmem with h0 | h0 <;> cases h0
  have hpost : Event.StartStandaloneChat ∉ Event.newChatConversationResolver :: rest := by
    simpa using hrest
  have hshape : (resolveAndSearch env (gateTrace c ++ [Event.StartStandaloneChat])
      (gateCmd env c)).trace
      = gateTrace c ++ Event.StartStandaloneChat :: Event.newChatConversationResolver :: rest := by
    rw [htrace]
    simp
  refine ⟨?_, gateTrace c, Event.newChatConversationResolver :: rest, hshape, hpre, hpost, ?_, rfl⟩
  · rw [hshape, List.count_append, List.count_cons_self,
      List.count_eq_zero_of_not_mem hpre, List.count_eq_zero_of_not_mem hpost]
  · intro ev hev
    rcases mem_gateTrace c ev hev with h0 | h0 <;> rw [h0] <;> rfl

/-- C10 as amended, at a standalone run on the team `acme` with every
collaborator succeeding. -/
theorem Run_standalone_team_start_once_witness :
    (Run (sampleRunEnv true) (sampleCmd "acme" ConversationMembersType.TEAM)).trace.count
      Event.StartStandaloneChat = 1 ∧
    ∃ pre post,
      (Run (sampleRunEnv true) (sampleCmd "acme" ConversationMembersType.TEAM)).trace
        = pre ++ Event.StartStandaloneChat :: post ∧
      Event.StartStandaloneChat ∉ pre ∧ Event.StartStandaloneChat ∉ post ∧
      (∀ ev ∈ pre, ev.isResolver = false) ∧
      post.head? = some Event.newChatConversationResolver :=
  Run_standalone_team_start_once (sampleRunEnv true)
    (sampleCmd "acme" ConversationMembersType.TEAM)
    (by decide) (by decide) (by decide) (Or.inl (by decide))

/-- C10 as stated fails: a standalone run on a team conversation whose protocol
registration fails returns before the `switch` and never calls
`StartStandaloneChat`. -/
theorem Run_standalone_team_start_once_counterexample :
    failingRegistrationEnv.Standalone = true ∧
    (sampleCmd "acme" ConversationMembersType.TEAM).resolvingRequest.MembersType
      = ConversationMembersType.TEAM ∧
    gateMembersType failingRegistrationEnv (sampleCmd "acme" ConversationMembersType.TEAM)
      = ConversationMembersType.TEAM ∧
    (Run failingRegistrationEnv (sampleCmd "acme" ConversationMembersType.TEAM)).trace
      = [Event.RegisterProtocolsWithContext] ∧
    (Run failingRegistrationEnv (sampleCmd "acme" ConversationMembersType.TEAM)).trace.count
      Event.StartStandaloneChat = 0 := by
  decide

/-! ## The stored request -/

/-- The date-filter checks pass: whatever happens next, each timestamp field
holds the converted date of a non-empty filter and is left alone by an empty
one. -/
theorem ParseArgv_dates_stored (env : ParseEnv) (ctx : Context) (c : CmdChatSearch)
    (hargs : ctx.Args.length = 2)
    (hconv : (env.parseConversationResolvingRequest ctx (ctx.Args.getD 0 "")).2 = none)
    (hboth : ¬ (ctx.String "sent-before" ≠ "" ∧ ctx.String "sent-after" ≠ ""))
    (hbefore : ctx.String "sent-before" ≠ "" → (env.ParseAny (ctx.String "sent-before")).2 = none)
    (hafter : ctx.String "sent-after" ≠ "" → (env.ParseAny (ctx.String "sent-after")).2 = none) :
    (ParseArgv env ctx c).cmd.opts.SentBefore =
      (if ctx.String "sent-before" ≠ "" then
        env.ToTime (env.ParseAny (ctx.String "sent-before")).1
      else c.opts.SentBefore) ∧
    (ParseArgv env ctx c).cmd.opts.SentAfter =
      (if ctx.String "sent-after" ≠ "" then
        env.ToTime (env.ParseAny (ctx.String "sent-after")).1
      else c.opts.SentAfter) := by
  unfold ParseArgv
  generalize ctx.Args.getD 0 "" = tlf at *
  generalize ctx.Args.getD 1 "" = q at *
  by_cases hh : ctx.Int "max-hits" > env.MaxAllowedSearchHits <;>
  by_cases hm : ctx.Int "max-messages" > env.MaxAllowedSearchMessages <;>
  by_cases hz : ctx.Int "after-context" = 0 ∧ ctx.Int "before-context" = 0 <;>
  cases hr : ctx.Bool "regex" <;>
  by_cases hb : ctx.String "sent-before" = "" <;>
  by_cases ha : ctx.String "sent-after" = "" <;>
  first
    | (exfalso; apply hboth; constructor <;> assumption)
    | (rcases hpb : env.ParseAny (ctx.String "sent-before") with ⟨tb, eb⟩
       rcases hpa : env.ParseAny (ctx.String "sent-after") with ⟨ta, ea⟩
       simp only [hpb, hpa, hb, ha, ne_eq, not_true_eq_false, not_false_eq_true,
         true_implies, false_implies] at hbefore hafter
       simp [hargs, hconv, hb, ha, hpb, hpa, hbefore, hafter, hh, hm, hz, hr]
       try (split <;> simp))

/-- C11, as the code has it: on every input on which `ParseArgv` returns `nil`
there are exactly two positional arguments and the stored query is the second
one as given, whether or not it is empty. -/
theorem ParseArgv_query_stored (env : ParseEnv) (ctx : Context) (c : CmdChatSearch)
    (hok : (ParseArgv env ctx c).err = none) :
    ctx.Args.length = 2 ∧ (ParseArgv env ctx c).cmd.query = ctx.Args.getD 1 "" := by
  obtain ⟨hargs, hconv, hboth, hbefore, hafter, hhits, hmsgs, hpat⟩ :=
    ParseArgv_checks_of_ok env ctx c hok
  rw [ParseArgv_of_checks env ctx c hargs hconv hboth hbefore hafter hhits hmsgs hpat]
  exact ⟨hargs, rfl⟩

/-- C11 as amended, at `keybase chat search alice a.b`. -/
theorem ParseArgv_query_stored_witness :
    literalContext.Args.length = 2 ∧
    (ParseArgv sampleParseEnv literalContext NewCmdChatSearchRunner).cmd.query = "a.b" :=
  ParseArgv_query_stored sampleParseEnv literalContext NewCmdChatSearchRunner (by decide)

/-- C11 as stated fails: `keybase chat search alice ""` returns `nil` and stores
the empty query. -/
theorem ParseArgv_query_nonempty_counterexample :
    emptyQueryContext.Args = ["alice", ""] ∧
    (ParseArgv sampleParseEnv emptyQueryContext NewCmdChatSearchRunner).err = none ∧
    (ParseArgv sampleParseEnv emptyQueryContext NewCmdChatSearchRunner).cmd.query = "" := by
  decide

/-- C12: on every input on which `ParseArgv`, run on the value built by
`NewCmdChatSearchRunner`, returns `nil`: `SentBefore` and `SentAfter` are not
both non-zero; each is non-zero only if its filter string is non-empty, and
is zero when the string is empty; and the date parser is called on a string
exactly when that string is a non-empty filter. -/
theorem ParseArgv_one_date_filter (env : ParseEnv) (ctx : Context)
    (hok : (ParseArgv env ctx NewCmdChatSearchRunner).err = none) :
    ¬ ((ParseArgv env ctx NewCmdChatSearchRunner).cmd.opts.SentBefore ≠ 0 ∧
       (ParseArgv env ctx NewCmdChatSearchRunner).cmd.opts.SentAfter ≠ 0) ∧
    ((ParseArgv env ctx NewCmdChatSearchRunner).cmd.opts.SentBefore ≠ 0 →
      ctx.String "sent-before" ≠ "") ∧
    ((ParseArgv env ctx NewCmdChatSearchRunner).cmd.opts.SentAfter ≠ 0 →
      ctx.String "sent-after" ≠ "") ∧
    (ctx.String "sent-before" = "" →
      (ParseArgv env ctx NewCmdChatSearchRunner).cmd.opts.SentBefore = 0) ∧
    (ctx.String "sent-after" = "" →
      (ParseArgv env ctx NewCmdChatSearchRunner).cmd.opts.SentAfter = 0) ∧
    (∀ s, Event.ParseAny s ∈ (ParseArgv env ctx NewCmdChatSearchRunner).trace ↔
      s ≠ "" ∧ (s = ctx.String "sent-before" ∨ s = ctx.String "sent-after")) := by
  obtain ⟨hargs, hconv, hboth, hbefore, hafter, hhits, hmsgs, hpat⟩ :=
    ParseArgv_checks_of_ok env ctx NewCmdChatSearchRunner hok
  rw [ParseArgv_of_checks env ctx NewCmdChatSearchRunner hargs hconv hboth hbefore hafter
    hhits hmsgs hpat]
  by_cases hb : ctx.String "sent-before" = "" <;>
  by_cases ha : ctx.String "sent-after" = ""
  · simp only [hb, ha, NewCmdChatSearchRunner]
    refine ⟨by simp, by simp, by simp, by simp, by simp, ?_⟩
    intro s
    constructor
    · intro h
      simp at h
    · rintro ⟨h1, h2 | h2⟩ <;> exact absurd h2 h1
  · simp only [hb, NewCmdChatSearchRunner]
    refine ⟨by simp, by simp, by simp [ha], by simp, by simp [ha], ?_⟩
    intro s
    constructor
    · intro h
      simp [ha] at h
      subst h
      exact ⟨ha, Or.inr rfl⟩
    · rintro ⟨h1, h2 | h2⟩
      · exact absurd h2 h1
      · simp [ha, h2]
  · simp only [ha, NewCmdChatSearchRunner]
    refine ⟨by simp, by simp [hb], by simp, by simp [hb], by simp, ?_⟩
    intro s
    constructor
    · intro h
      simp [hb] at h
      subst h
      exact ⟨hb, Or.inl rfl⟩
    · rintro ⟨h1, h2 | h2⟩
      · simp [hb, h2]
      · exact absurd h2 h1
  · exact absurd ⟨hb, ha⟩ hboth

/-- C12 at `--sent-before 2018-01-01`: one call of the date parser, `SentBefore`
set, `SentAfter` zero. -/
theorem ParseArgv_one_date_filter_witness :
    (ParseArgv sampleParseEnv sentBeforeContext NewCmdChatSearchRunner).cmd.opts.SentBefore
      = 1514764800000 ∧
    (ParseArgv sampleParseEnv sentBeforeContext NewCmdChatSearchRunner).cmd.opts.SentAfter = 0 ∧
    Event.ParseAny "2018-01-01"
      ∈ (ParseArgv sampleParseEnv sentBeforeContext NewCmdChatSearchRunner).trace ∧
    Event.ParseAny ""
      ∉ (ParseArgv sampleParseEnv sentBeforeContext NewCmdChatSearchRunner).trace :=
  have h := ParseArgv_one_date_filter sampleParseEnv sentBeforeContext (by decide)
  ⟨by decide, h.2.2.2.2.1 (by decide), (h.2.2.2.2.2 _).mpr (by decide),
   fun hmem => ((h.2.2.2.2.2 _).mp hmem).1 rfl⟩

/-- C13: with two positional arguments, a conversation reference that parses and
exactly one non-empty date filter, a failure of the date parser on that filter
makes `ParseArgv` return the parser error, and a success leaves the converted
date in the field of that filter, whatever the later checks do. -/
theorem ParseArgv_date_parse (env : ParseEnv) (ctx : Context) (c : CmdChatSearch)
    (hargs : ctx.Args.length = 2)
    (hconv : (env.parseConversationResolvingRequest ctx (ctx.Args.getD 0 "")).2 = none) :
    (ctx.String "sent-before" ≠ "" → ctx.String "sent-after" = "" →
      (∀ e, (env.ParseAny (ctx.String "sent-before")).2 = some e →
        (ParseArgv env ctx c).err = some e) ∧
      ((env.ParseAny (ctx.String "sent-before")).2 = none →
        (ParseArgv env ctx c).cmd.opts.SentBefore
          = env.ToTime (env.ParseAny (ctx.String "sent-before")).1)) ∧
    (ctx.String "sent-before" = "" → ctx.String "sent-after" ≠ "" →
      (∀ e, (env.ParseAny (ctx.String "sent-after")).2 = some e →
        (ParseArgv env ctx c).err = some e) ∧
      ((env.ParseAny (ctx.String "sent-after")).2 = none →
        (ParseArgv env ctx c).cmd.opts.SentAfter
          = env.ToTime (env.ParseAny (ctx.String "sent-after")).1)) := by
  constructor
  · intro hb ha
    refine ⟨fun e he => ParseArgv_of_bad_sent_before env ctx c e hargs hconv hb ha he, ?_⟩
    intro hp
    have h := (ParseArgv_dates_stored env ctx c hargs hconv (fun h0 => h0.2 ha)
      (fun _ => hp) (fun h0 => absurd ha h0)).1
    rw [h, if_pos hb]
  · intro hb ha
    refine ⟨fun e he => ParseArgv_of_bad_sent_after env ctx c e hargs hconv hb ha he, ?_⟩
    intro hp
    have h := (ParseArgv_dates_stored env ctx c hargs hconv (fun h0 => h0.1 hb)
      (fun h0 => absurd hb h0) (fun _ => hp)).2
    rw [h, if_pos ha]

/-- C13 at `--sent-after yesterday` (rejected by the sample parser) and at
`--sent-before 2018-01-01` (accepted). -/
theorem ParseArgv_date_parse_witness :
    (ParseArgv sampleParseEnv badSentAfterContext NewCmdChatSearchRunner).err
      = some (Error.foreign 2) ∧
    (ParseArgv sampleParseEnv sentBeforeContext NewCmdChatSearchRunner).cmd.opts.SentBefore
      = 1514764800000 :=
  ⟨((ParseArgv_date_parse sampleParseEnv badSentAfterContext NewCmdChatSearchRunner
      (by decide) (by decide)).2 (by decide) (by decide)).1 _ (by decide),
   ((ParseArgv_date_parse sampleParseEnv sentBeforeContext NewCmdChatSearchRunner
      (by decide) (by decide)).1 (by decide) (by decide)).2 (by decide)⟩

/-- C14: when the checks up to max-hits pass, a max-messages over
`MaxAllowedSearchMessages` makes `ParseArgv` return the max-messages limit
error, and a max-messages equal to it passes this check: what `ParseArgv`
returns is then the result of the pattern compiler. -/
theorem ParseArgv_max_messages_boundary (env : ParseEnv) (ctx : Context) (c : CmdChatSearch)
    (hargs : ctx.Args.length = 2)
    (hconv : (env.parseConversationResolvingRequest ctx (ctx.Args.getD 0 "")).2 = none)
    (hboth : ¬ (ctx.String "sent-before" ≠ "" ∧ ctx.String "sent-after" ≠ ""))
    (hbefore : ctx.String "sent-before" ≠ "" → (env.ParseAny (ctx.String "sent-before")).2 = none)
    (hafter : ctx.String "sent-after" ≠ "" → (env.ParseAny (ctx.String "sent-after")).2 = none)
    (hhits : ctx.Int "max-hits" ≤ env.MaxAllowedSearchHits) :
    (ctx.Int "max-messages" > env.MaxAllowedSearchMessages →
      (ParseArgv env ctx c).err = some (maxMessagesError env.MaxAllowedSearchMessages)) ∧
    (ctx.Int "max-messages" = env.MaxAllowedSearchMessages →
      (ParseArgv env ctx c).err
        = env.Compile (if ctx.Bool "regex" then ctx.Args.getD 1 ""
            else env.QuoteMeta (ctx.Args.getD 1 ""))) := by
  constructor
  · intro hover
    exact ParseArgv_of_max_messages_over env ctx c hargs hconv hboth hbefore hafter hhits hover
  · intro hat
    cases hpat : env.Compile (if ctx.Bool "regex" then ctx.Args.getD 1 ""
        else env.QuoteMeta (ctx.Args.getD 1 "")) with
    | none =>
      rw [ParseArgv_of_checks env ctx c hargs hconv hboth hbefore hafter hhits (le_of_eq hat)
        hpat]
    | some e =>
      exact (ParseArgv_of_bad_pattern env ctx c e hargs hconv hboth hbefore hafter hhits
        (le_of_eq hat) hpat).1

/-- C14 at max-messages 100001 and 100000 with the limit 100000. -/
theorem ParseArgv_max_messages_boundary_witness :
    (ParseArgv sampleParseEnv (maxMessagesContext 100001) NewCmdChatSearchRunner).err
      = some (maxMessagesError 100000) ∧
    (ParseArgv sampleParseEnv (maxMessagesContext 100000) NewCmdChatSearchRunner).err
      = sampleParseEnv.Compile "hello" :=
  ⟨(ParseArgv_max_messages_boundary sampleParseEnv (maxMessagesContext 100001)
      NewCmdChatSearchRunner (by decide) (by decide) (by decide) (by decide) (by decide)
      (by decide)).1 (by decide),
   (ParseArgv_max_messages_boundary sampleParseEnv (maxMessagesContext 100000)
      NewCmdChatSearchRunner (by decide) (by decide) (by decide) (by decide) (by decide)
      (by decide)).2 (by decide)⟩

/-- C15, as the code has it: on every input on which `ParseArgv` returns `nil`
with before-context, after-context and context all at least 0, `BeforeContext`
and `AfterContext` are at least 0.  No check rejects a negative value. -/
theorem ParseArgv_context_nonneg (env : ParseEnv) (ctx : Context) (c : CmdChatSearch)
    (hok : (ParseArgv env ctx c).err = none)
    (hb : 0 ≤ ctx.Int "before-context") (ha : 0 ≤ ctx.Int "after-context")
    (hc : 0 ≤ ctx.Int "context") :
    0 ≤ (ParseArgv env ctx c).cmd.opts.BeforeContext ∧
    0 ≤ (ParseArgv env ctx c).cmd.opts.AfterContext := by
  obtain ⟨hargs, hconv, hboth, hbefore, hafter, hhits, hmsgs, hpat⟩ :=
    ParseArgv_checks_of_ok env ctx c hok
  rw [ParseArgv_of_checks env ctx c hargs hconv hboth hbefore hafter hhits hmsgs hpat]
  by_cases hz : ctx.Int "after-context" = 0 ∧ ctx.Int "before-context" = 0
  · simp [hz, hc]
  · simp [hz, hb, ha]

/-- C15 as amended, at `-B 3`. -/
theorem ParseArgv_context_nonneg_witness :
    0 ≤ (ParseArgv sampleParseEnv beforeOnlyContext NewCmdChatSearchRunner).cmd.opts.BeforeContext ∧
    0 ≤ (ParseArgv sampleParseEnv beforeOnlyContext NewCmdChatSearchRunner).cmd.opts.AfterContext :=
  ParseArgv_context_nonneg sampleParseEnv beforeOnlyContext NewCmdChatSearchRunner
    (by decide) (by decide) (by decide) (by decide)

/-- C15 as stated fails: `-B -3` returns `nil` and stores `BeforeContext` -3, and
`-C -1` returns `nil` and stores -1 on both sides. -/
theorem ParseArgv_context_nonneg_counterexample :
    (ParseArgv sampleParseEnv negativeBeforeContext NewCmdChatSearchRunner).err = none ∧
    (ParseArgv sampleParseEnv negativeBeforeContext NewCmdChatSearchRunner).cmd.opts.BeforeContext
      = -3 ∧
    (ParseArgv sampleParseEnv negativeSymmetricContext NewCmdChatSearchRunner).err = none ∧
    (ParseArgv sampleParseEnv negativeSymmetricContext
      NewCmdChatSearchRunner).cmd.opts.BeforeContext = -1 ∧
    (ParseArgv sampleParseEnv negativeSymmetricContext
      NewCmdChatSearchRunner).cmd.opts.AfterContext = -1 := by
  decide

/-! ## Supplied and default flag values -/

/-- A flag that is not supplied reads as declared. -/
theorem newContext_defaults (args : List String) (supplied : List (String × FlagValue))
    (hnone : ∀ name ∈ newCmdChatSearch.map Flag.Name, supplied.lookup name = none) :
    (newContext newCmdChatSearch args supplied).Int "max-hits" = 10 ∧
    (newContext newCmdChatSearch args supplied).Int "max-messages" = 10000 ∧
    (newContext newCmdChatSearch args supplied).Int "before-context" = 0 ∧
    (newContext newCmdChatSearch args supplied).Int "after-context" = 0 ∧
    (newContext newCmdChatSearch args supplied).Int "context" = 2 ∧
    (newContext newCmdChatSearch args supplied).Bool "regex" = false ∧
    (newContext newCmdChatSearch args supplied).String "sent-by" = "" ∧
    (newContext newCmdChatSearch args supplied).String "sent-before" = "" ∧
    (newContext newCmdChatSearch args supplied).String "sent-after" = "" := by
  have h1 := hnone "max-hits" (by decide)
  have h2 := hnone "max-messages" (by decide)
  have h3 := hnone "before-context" (by decide)
  have h4 := hnone "after-context" (by decide)
  have h5 := hnone "context" (by decide)
  have h6 := hnone "regex" (by decide)
  have h7 := hnone "sent-by" (by decide)
  have h8 := hnone "sent-before" (by decide)
  have h9 := hnone "sent-after" (by decide)
  simp only [newContext, lookupFlag, h1, h2, h3, h4, h5, h6, h7, h8, h9]
  decide

/-- A supplied integer flag reads as supplied. -/
theorem newContext_supplied_int (flags : List Flag) (args : List String)
    (supplied : List (String × FlagValue)) (name : String) (n : Int)
    (h : supplied.lookup name = some (FlagValue.int n)) :
    (newContext flags args supplied).Int name = n := by
  simp only [newContext, lookupFlag, h]

/-- C16, as the code has it: on every input on which `ParseArgv` returns `nil`,
a before-context or after-context supplied with a value other than 0 is
stored as supplied, the other side keeps the value of its own flag, and the
context flag is not used; when both flags read 0, supplied or not, both
fields take the value of the context flag. -/
theorem ParseArgv_supplied_context (env : ParseEnv) (args : List String)
    (supplied : List (String × FlagValue)) (ctx : Context) (c : CmdChatSearch)
    (hctx : ctx = newContext newCmdChatSearch args supplied)
    (hok : (ParseArgv env ctx c).err = none) :
    (∀ n : Int, n ≠ 0 → supplied.lookup "before-context" = some (FlagValue.int n) →
      (ParseArgv env ctx c).cmd.opts.BeforeContext = n ∧
      (ParseArgv env ctx c).cmd.opts.AfterContext = ctx.Int "after-context") ∧
    (∀ n : Int, n ≠ 0 → supplied.lookup "after-context" = some (FlagValue.int n) →
      (ParseArgv env ctx c).cmd.opts.AfterContext = n ∧
      (ParseArgv env ctx c).cmd.opts.BeforeContext = ctx.Int "before-context") ∧
    (ctx.Int "before-context" = 0 → ctx.Int "after-context" = 0 →
      (ParseArgv env ctx c).cmd.opts.BeforeContext = ctx.Int "context" ∧
      (ParseArgv env ctx c).cmd.opts.AfterContext = ctx.Int "context") := by
  obtain ⟨hargs, hconv, hboth, hbefore, hafter, hhits, hmsgs, hpat⟩ :=
    ParseArgv_checks_of_ok env ctx c hok
  rw [ParseArgv_of_checks env ctx c hargs hconv hboth hbefore hafter hhits hmsgs hpat]
  refine ⟨?_, ?_, ?_⟩
  · intro n hn hsup
    have hread : ctx.Int "before-context" = n := by
      rw [hctx]
      exact newContext_supplied_int _ _ _ _ _ hsup
    simp [hread, hn]
  · intro n hn hsup
    have hread : ctx.Int "after-context" = n := by
      rw [hctx]
      exact newContext_supplied_int _ _ _ _ _ hsup
    simp [hread, hn]
  · intro hb ha
    simp [hb, ha]

/-- C16 as amended, at `-B 4 -C 7`: 4 before, 0 after. -/
theorem ParseArgv_supplied_context_witness :
    (ParseArgv sampleParseEnv explicitBeforeContext NewCmdChatSearchRunner).cmd.opts.BeforeContext
      = 4 ∧
    (ParseArgv sampleParseEnv explicitBeforeContext NewCmdChatSearchRunner).cmd.opts.AfterContext
      = 0 :=
  (ParseArgv_supplied_context sampleParseEnv ["alice", "hello"]
    [("before-context", FlagValue.int 4), ("context", FlagValue.int 7)]
    explicitBeforeContext NewCmdChatSearchRunner rfl (by decide)).1 4 (by decide) (by decide)

/-- C16 as stated fails: with `-B 0 -A 0 -C 7` both flags are supplied, yet the
call returns `nil` with 7 stored on both sides. -/
theorem ParseArgv_supplied_context_counterexample :
    explicitZeroContext.Int "before-context" = 0 ∧
    explicitZeroContext.Int "after-context" = 0 ∧
    (ParseArgv sampleParseEnv explicitZeroContext NewCmdChatSearchRunner).err = none ∧
    (ParseArgv sampleParseEnv explicitZeroContext NewCmdChatSearchRunner).cmd.opts.BeforeContext
      = 7 ∧
    (ParseArgv sampleParseEnv explicitZeroContext NewCmdChatSearchRunner).cmd.opts.AfterContext
      = 7 := by
  decide

/-- C17: with no search flag supplied, the values read are max-hits 10,
max-messages 10000, before-context 0, after-context 0, context 2, regex false
and three empty strings; so with two positional arguments, a conversation
reference that parses, limits of at least 10 and 10000, and a compiler that
accepts the escaped query, `ParseArgv` on a new command returns `nil` with
`MaxHits` 10, `MaxMessages` 10000, both context fields 2, `isRegex` false,
`SentBy` empty, both timestamps zero and no call of the date parser. -/
theorem ParseArgv_flag_defaults (env : ParseEnv) (args : List String)
    (supplied : List (String × FlagValue)) (ctx : Context)
    (hctx : ctx = newContext newCmdChatSearch args supplied)
    (hnone : ∀ name ∈ newCmdChatSearch.map Flag.Name, supplied.lookup name = none) :
    (ctx.Int "max-hits" = 10 ∧ ctx.Int "max-messages" = 10000 ∧
      ctx.Int "before-context" = 0 ∧ ctx.Int "after-context" = 0 ∧ ctx.Int "context" = 2 ∧
      ctx.Bool "regex" = false ∧ ctx.String "sent-by" = "" ∧
      ctx.String "sent-before" = "" ∧ ctx.String "sent-after" = "") ∧
    (args.length = 2 →
      (env.parseConversationResolvingRequest ctx (args.getD 0 "")).2 = none →
      10 ≤ env.MaxAllowedSearchHits → 10000 ≤ env.MaxAllowedSearchMessages →
      env.Compile (env.QuoteMeta (args.getD 1 "")) = none →
      (ParseArgv env ctx NewCmdChatSearchRunner).err = none ∧
      (ParseArgv env ctx NewCmdChatSearchRunner).cmd.opts.MaxHits = 10 ∧
      (ParseArgv env ctx NewCmdChatSearchRunner).cmd.opts.MaxMessages = 10000 ∧
      (ParseArgv env ctx NewCmdChatSearchRunner).cmd.opts.BeforeContext = 2 ∧
      (ParseArgv env ctx NewCmdChatSearchRunner).cmd.opts.AfterContext = 2 ∧
      (ParseArgv env ctx NewCmdChatSearchRunner).cmd.isRegex = false ∧
      (ParseArgv env ctx NewCmdChatSearchRunner).cmd.opts.SentBy = "" ∧
      (ParseArgv env ctx NewCmdChatSearchRunner).cmd.opts.SentBefore = 0 ∧
      (ParseArgv env ctx NewCmdChatSearchRunner).cmd.opts.SentAfter = 0 ∧
      (∀ s, Event.ParseAny s ∉ (ParseArgv env ctx NewCmdChatSearchRunner).trace)) := by
  have hdef := newContext_defaults args supplied hnone
  rw [← hctx] at hdef
  obtain ⟨hh, hm, hb, ha, hc, hr, hsby, hsb, hsa⟩ := hdef
  refine ⟨⟨hh, hm, hb, ha, hc, hr, hsby, hsb, hsa⟩, ?_⟩
  intro hlen hconv hmaxh hmaxm hpat
  have hargs : ctx.Args = args := by rw [hctx]; rfl
  have hargs2 : ctx.Args.length = 2 := by rw [hargs]; exact hlen
  rw [← hargs] at hconv hpat
  have hpat2 : env.Compile (if ctx.Bool "regex" then ctx.Args.getD 1 ""
      else env.QuoteMeta (ctx.Args.getD 1 "")) = none := by
    rw [hr]
    exact hpat
  rw [ParseArgv_of_checks env ctx NewCmdChatSearchRunner hargs2 hconv
    (by simp [hsb]) (by simp [hsb]) (by simp [hsa]) (by rw [hh]; exact hmaxh)
    (by rw [hm]; exact hmaxm) hpat2]
  simp [hh, hm, hb, ha, hc, hr, hsby, hsb, hsa, NewCmdChatSearchRunner]

/-- C17 at `keybase chat search alice hello` with the limits 10000 and 100000. -/
theorem ParseArgv_flag_defaults_witness :
    (ParseArgv sampleParseEnv (newContext newCmdChatSearch ["alice", "hello"] [])
      NewCmdChatSearchRunner).err = none ∧
    (ParseArgv sampleParseEnv (newContext newCmdChatSearch ["alice", "hello"] [])
      NewCmdChatSearchRunner).cmd.opts
      = { SentBy := "", SentBefore := 0, SentAfter := 0, MaxHits := 10, MaxMessages := 10000,
          BeforeContext := 2, AfterContext := 2 } :=
  have h := (ParseArgv_flag_defaults sampleParseEnv ["alice", "hello"] []
    (newContext newCmdChatSearch ["alice", "hello"] []) rfl (by decide)).2
    (by decide) (by decide) (by decide) (by decide) (by decide)
  ⟨h.1, by decide⟩

/-! ## From the resolver on -/

/-- The resolver cannot be created. -/
theorem resolveAndSearch_of_resolver_error (env : RunEnv) (t : List Event) (c : CmdChatSearch)
    (e : Error) (hnew : env.newChatConversationResolver = some e) :
    resolveAndSearch env t c =
      { trace := t ++ [Event.newChatConversationResolver], cmd := c, err := some e } := by
  unfold resolveAndSearch
  simp only [hnew]

/-- The resolver does not resolve the conversation. -/
theorem resolveAndSearch_of_resolve_error (env : RunEnv) (t : List Event) (c : CmdChatSearch)
    (e : Error) (hnew : env.newChatConversationResolver = none)
    (hres : (env.Resolve c.resolvingRequest (resolvingBehavior c)).2 = some e) :
    resolveAndSearch env t c =
      { trace := t ++ [Event.newChatConversationResolver,
          Event.Resolve c.resolvingRequest (resolvingBehavior c)],
        cmd := c, err := some e } := by
  unfold resolveAndSearch
  unfold resolvingBehavior at *
  rcases hr : env.Resolve c.resolvingRequest
    { CreateIfNotExists := false, MustNotExist := false, Interactive := c.hasTTY } with ⟨id, er⟩
  rw [hr] at hres
  simp only at hres
  simp [hnew, hr, hres]

/-- The conversation is resolved: one search call follows, and its error is the
result. -/
theorem resolveAndSearch_of_resolved (env : RunEnv) (t : List Event) (c : CmdChatSearch)
    (hnew : env.newChatConversationResolver = none)
    (hres : (env.Resolve c.resolvingRequest (resolvingBehavior c)).2 = none) :
    resolveAndSearch env t c =
      { trace := t ++ [Event.newChatConversationResolver,
          Event.Resolve c.resolvingRequest (resolvingBehavior c),
          Event.GetSearchRegexp
            (searchArg (env.Resolve c.resolvingRequest (resolvingBehavior c)).1 c)],
        cmd := c,
        err := env.GetSearchRegexp
          (searchArg (env.Resolve c.resolvingRequest (resolvingBehavior c)).1 c) } := by
  unfold resolveAndSearch
  unfold resolvingBehavior searchArg at *
  rcases hr : env.Resolve c.resolvingRequest
    { CreateIfNotExists := false, MustNotExist := false, Interactive := c.hasTTY } with ⟨id, er⟩
  rw [hr] at hres
  simp only at hres
  simp [hnew, hr, hres]

/-- The annotation leaves the terminal flag alone. -/
theorem gateCmd_hasTTY (env : RunEnv) (c : CmdChatSearch) :
    (gateCmd env c).hasTTY = c.hasTTY := by
  unfold gateCmd
  by_cases htlf : c.resolvingRequest.TlfName = "" <;> simp [htlf]

/-- From the resolver on: standalone chat is not started, the result is `nil` or
the error of one of the three calls, and the first call creates the resolver,
followed on success by `Resolve` on the stored request. -/
theorem resolveAndSearch_facts (env : RunEnv) (t : List Event) (c : CmdChatSearch)
    (ht : Event.StartStandaloneChat ∉ t) :
    Event.StartStandaloneChat ∉ (resolveAndSearch env t c).trace ∧
    ((resolveAndSearch env t c).err = env.newChatConversationResolver ∨
      (resolveAndSearch env t c).err
        = (env.Resolve c.resolvingRequest (resolvingBehavior c)).2 ∨
      (resolveAndSearch env t c).err
        = env.GetSearchRegexp
            (searchArg (env.Resolve c.resolvingRequest (resolvingBehavior c)).1 c)) ∧
    ∃ rest, (resolveAndSearch env t c).trace = t ++ Event.newChatConversationResolver :: rest ∧
      (env.newChatConversationResolver = none →
        rest.head? = some (Event.Resolve c.resolvingRequest (resolvingBehavior c))) := by
  cases hnew : env.newChatConversationResolver with
  | some e =>
    rw [resolveAndSearch_of_resolver_error env t c e hnew]
    refine ⟨by simpa using ht, Or.inl rfl, [], rfl, fun h => by cases h⟩
  | none =>
    cases hres : (env.Resolve c.resolvingRequest (resolvingBehavior c)).2 with
    | some e =>
      rw [resolveAndSearch_of_resolve_error env t c e hnew hres]
      refine ⟨by simpa using ht, Or.inr (Or.inl rfl), _, rfl, fun _ => rfl⟩
    | none =>
      rw [resolveAndSearch_of_resolved env t c hnew hres]
      refine ⟨by simpa using ht, Or.inr (Or.inr rfl), _, rfl, fun _ => rfl⟩

/-! ## Networked mode and the search call -/

/-- C18: with standalone mode off and any membership type, `Run` never calls
`StartStandaloneChat`; it returns `CantRunInStandaloneError` only if a
collaborator hands that error back; and once the registration and the
annotation have succeeded, the next call creates the resolver, followed on
success by `Resolve` on the request. -/
theorem Run_networked_proceeds (env : RunEnv) (c : CmdChatSearch)
    (hs : env.Standalone = false) :
    Event.StartStandaloneChat ∉ (Run env c).trace ∧
    (env.RegisterProtocolsWithContext ≠ some Error.CantRunInStandaloneError →
      (∀ req, (env.annotateResolvingRequest req).2 ≠ some Error.CantRunInStandaloneError) →
      env.newChatConversationResolver ≠ some Error.CantRunInStandaloneError →
      (∀ req b, (env.Resolve req b).2 ≠ some Error.CantRunInStandaloneError) →
      (∀ arg, env.GetSearchRegexp arg ≠ some Error.CantRunInStandaloneError) →
      (Run env c).err ≠ some Error.CantRunInStandaloneError) ∧
    (env.RegisterProtocolsWithContext = none →
      (c.resolvingRequest.TlfName ≠ "" →
        (env.annotateResolvingRequest c.resolvingRequest).2 = none) →
      ∃ rest, (Run env c).trace = gateTrace c ++ Event.newChatConversationResolver :: rest ∧
        (env.newChatConversationResolver = none →
          rest.head? = some (Event.Resolve (gateCmd env c).resolvingRequest
            (resolvingBehavior c)))) := by
  have hgate : Event.StartStandaloneChat ∉ gateTrace c := by
    intro hmem
    rcases mem_gateTrace c _ hmem with h0 | h0 <;> cases h0
  cases hreg : env.RegisterProtocolsWithContext with
  | some e =>
    rw [Run_of_registration_error env c e hreg]
    refine ⟨by simp, ?_, fun h => by cases h⟩
    intro h1 _ _ _ _
    exact h1
  | none =>
    by_cases hann : c.resolvingRequest.TlfName ≠ "" →
        (env.annotateResolvingRequest c.resolvingRequest).2 = none
    · rw [Run_of_networked env c hreg hann hs]
      obtain ⟨hstart, herr, rest, htrace, hhead⟩ :=
        resolveAndSearch_facts env (gateTrace c) (gateCmd env c) hgate
      refine ⟨hstart, ?_, fun _ _ => ⟨rest, htrace, ?_⟩⟩
      · intro _ _ h3 h4 h5
        rcases herr with h | h | h <;> rw [h]
        · exact h3
        · exact h4 _ _
        · exact h5 _
      · intro hnew
        have h := hhead hnew
        unfold resolvingBehavior at h ⊢
        rw [gateCmd_hasTTY] at h
        exact h
    · have htlf : c.resolvingRequest.TlfName ≠ "" := fun h0 => hann (fun h4 => absurd h0 h4)
      cases he : (env.annotateResolvingRequest c.resolvingRequest).2 with
      | none => exact absurd (fun _ => he) hann
      | some e =>
        rw [Run_of_annotation_error env c e hreg htlf he]
        refine ⟨hgate, ?_, fun _ h5 => by cases h5 htlf⟩
        intro _ h2 _ _ _
        rw [← he]
        exact h2 _

/-- C18 at a networked run on the one-to-one conversation `alice`, the input on
which the standalone run is refused. -/
theorem Run_networked_proceeds_witness :
    Event.StartStandaloneChat
      ∉ (Run (sampleRunEnv false) (sampleCmd "alice" (ConversationMembersType.other 0))).trace ∧
    (Run (sampleRunEnv false) (sampleCmd "alice" (ConversationMembersType.other 0))).err
      ≠ some Error.CantRunInStandaloneError ∧
    ∃ rest, (Run (sampleRunEnv false) (sampleCmd "alice" (ConversationMembersType.other 0))).trace
        = gateTrace (sampleCmd "alice" (ConversationMembersType.other 0))
          ++ Event.newChatConversationResolver :: rest ∧
      ((sampleRunEnv false).newChatConversationResolver = none →
        rest.head? = some (Event.Resolve
          (gateCmd (sampleRunEnv false)
            (sampleCmd "alice" (ConversationMembersType.other 0))).resolvingRequest
          (resolvingBehavior (sampleCmd "alice" (ConversationMembersType.other 0))))) :=
  have h := Run_networked_proceeds (sampleRunEnv false)
    (sampleCmd "alice" (ConversationMembersType.other 0)) (by decide)
  ⟨h.1, h.2.1 (by decide) (fun _ => by simp [sampleRunEnv]) (by decide)
    (fun _ _ => by simp [sampleRunEnv]) (fun _ => by simp [sampleRunEnv]),
    h.2.2 (by decide) (by decide)⟩

/-- The annotation does not change the behaviour record. -/
theorem resolvingBehavior_gateCmd (env : RunEnv) (c : CmdChatSearch) :
    resolvingBehavior (gateCmd env c) = resolvingBehavior c := by
  unfold resolvingBehavior
  rw [gateCmd_hasTTY]

/-- The annotation does not change the search argument. -/
theorem searchArg_gateCmd (env : RunEnv) (id : Nat) (c : CmdChatSearch) :
    searchArg id (gateCmd env c) = searchArg id c := by
  obtain ⟨h1, h2, h3⟩ := gateCmd_fields env c
  unfold searchArg
  rw [h1, h2, h3]

/-- No search call is made before the `switch`. -/
theorem filter_isSearch_gateTrace (c : CmdChatSearch) :
    (gateTrace c).filter Event.isSearch = [] := by
  unfold gateTrace
  by_cases htlf : c.resolvingRequest.TlfName = "" <;> simp [htlf, Event.isSearch]

/-- C19: a `Run` that passes the gate and resolves the conversation makes, in
this order, the registration, the annotation when `TlfName` is not empty,
`StartStandaloneChat` when standalone, the creation of the resolver, `Resolve`
and one `GetSearchRegexp`; this is its only search call, the argument holds
the resolved id with the stored query, regex flag and options, and `Run`
returns the error of that call.  Every other `Run` makes no search call. -/
theorem Run_single_search_call (env : RunEnv) (c : CmdChatSearch) :
    (passesGateAndResolves env c →
      (Run env c).trace =
        gateTrace c ++ (if env.Standalone then [Event.StartStandaloneChat] else [])
          ++ [Event.newChatConversationResolver,
              Event.Resolve (gateCmd env c).resolvingRequest (resolvingBehavior c),
              Event.GetSearchRegexp
                (searchArg (env.Resolve (gateCmd env c).resolvingRequest
                  (resolvingBehavior c)).1 c)] ∧
      (Run env c).trace.head? = some Event.RegisterProtocolsWithContext ∧
      (Run env c).trace.filter Event.isSearch =
        [Event.GetSearchRegexp
          (searchArg (env.Resolve (gateCmd env c).resolvingRequest
            (resolvingBehavior c)).1 c)] ∧
      (Run env c).err =
        env.GetSearchRegexp
          (searchArg (env.Resolve (gateCmd env c).resolvingRequest
            (resolvingBehavior c)).1 c)) ∧
    (¬ passesGateAndResolves env c →
      ∀ arg, Event.GetSearchRegexp arg ∉ (Run env c).trace) := by
  have hgate : ∀ arg, Event.GetSearchRegexp arg ∉ gateTrace c := by
    intro arg hmem
    rcases mem_gateTrace c _ hmem with h0 | h0 <;> cases h0
  have hfilter := filter_isSearch_gateTrace c
  have hhead : ∀ l, (gateTrace c ++ l).head? = some Event.RegisterProtocolsWithContext := by
    intro l
    unfold gateTrace
    rfl
  constructor
  · rintro ⟨hreg, hann, hteam, hnew, hres⟩
    rw [← resolvingBehavior_gateCmd env c] at hres
    cases hs : env.Standalone with
    | false =>
      rw [Run_of_networked env c hreg hann hs,
        resolveAndSearch_of_resolved env _ _ hnew hres, resolvingBehavior_gateCmd,
        searchArg_gateCmd]
      refine ⟨by simp, hhead _, ?_, rfl⟩
      simp [List.filter_append, hfilter, Event.isSearch]
    | true =>
      rw [Run_of_gate_team env c hreg hann hs (hteam hs),
        resolveAndSearch_of_resolved env _ _ hnew hres, resolvingBehavior_gateCmd,
        searchArg_gateCmd]
      refine ⟨by simp, ?_, ?_, rfl⟩
      · rw [List.append_assoc]
        exact hhead _
      · simp [List.filter_append, hfilter, Event.isSearch]
  · intro hnot arg
    cases hreg : env.RegisterProtocolsWithContext with
    | some e =>
      rw [Run_of_registration_error env c e hreg]
      simp
    | none =>
      by_cases hann : c.resolvingRequest.TlfName ≠ "" →
          (env.annotateResolvingRequest c.resolvingRequest).2 = none
      swap
      · have htlf : c.resolvingRequest.TlfName ≠ "" := fun h0 => hann (fun h4 => absurd h0 h4)
        cases he : (env.annotateResolvingRequest c.resolvingRequest).2 with
        | none => exact absurd (fun _ => he) hann
        | some e =>
          rw [Run_of_annotation_error env c e hreg htlf he]
          exact hgate arg
      by_cases hteam : env.Standalone = true →
            gateMembersType env c = ConversationMembersType.TEAM ∨
            gateMembersType env c = ConversationMembersType.IMPTEAMNATIVE ∨
            gateMembersType env c = ConversationMembersType.IMPTEAMUPGRADE
      swap
      · have hs : env.Standalone = true := by
          by_contra h0
          exact hteam (fun h4 => absurd h4 h0)
        have hno : ¬ (gateMembersType env c = ConversationMembersType.TEAM ∨
            gateMembersType env c = ConversationMembersType.IMPTEAMNATIVE ∨
            gateMembersType env c = ConversationMembersType.IMPTEAMUPGRADE) :=
          fun h0 => hteam (fun _ => h0)
        rw [Run_of_gate_blocked env c hreg hann hs (fun h0 => hno (Or.inl h0))
          (fun h0 => hno (Or.inr (Or.inl h0))) (fun h0 => hno (Or.inr (Or.inr h0)))]
        exact hgate arg
      have hrun : ∃ t, (∀ a, Event.GetSearchRegexp a ∉ t) ∧
          Run env c = resolveAndSearch env t (gateCmd env c) := by
        cases hs : env.Standalone with
        | false => exact ⟨_, hgate, Run_of_networked env c hreg hann hs⟩
        | true =>
          refine ⟨_, ?_, Run_of_gate_team env c hreg hann hs (hteam hs)⟩
          intro a hmem
          simp at hmem
          exact hgate a hmem
      obtain ⟨t, ht, hrun⟩ := hrun
      rw [hrun]
      cases hnew : env.newChatConversationResolver with
      | some e =>
        rw [resolveAndSearch_of_resolver_error env t _ e hnew]
        simpa using ht arg
      | none =>
        cases hres : (env.Resolve (gateCmd env c).resolvingRequest
            (resolvingBehavior (gateCmd env c))).2 with
        | some e =>
          rw [resolveAndSearch_of_resolve_error env t _ e hnew hres]
          simpa using ht arg
        | none =>
          rw [resolvingBehavior_gateCmd] at hres
          exact absurd ⟨hreg, hann, hteam, hnew, hres⟩ hnot

/-- C19 at a networked run with every collaborator succeeding, and at one whose
resolver does not find the conversation. -/
theorem Run_single_search_call_witness :
    (Run (sampleRunEnv false) (sampleCmd "alice" (ConversationMembersType.other 0))).trace
      = [Event.RegisterProtocolsWithContext,
         Event.annotateResolvingRequest
           { TlfName := "alice", MembersType := ConversationMembersType.other 0, rest := 0 },
         Event.newChatConversationResolver,
         Event.Resolve
           { TlfName := "alice", MembersType := ConversationMembersType.other 0, rest := 0 }
           { CreateIfNotExists := false, MustNotExist := false, Interactive := false },
         Event.GetSearchRegexp
           { ConvID := 7, Query := "hello", IsRegex := false,
             Opts := NewCmdChatSearchRunner.opts }] ∧
    (∀ arg, Event.GetSearchRegexp arg
      ∉ (Run failingResolveEnv (sampleCmd "alice" (ConversationMembersType.other 0))).trace) :=
  ⟨((Run_single_search_call (sampleRunEnv false)
      (sampleCmd "alice" (ConversationMembersType.other 0))).1
      ⟨by decide, by decide, by decide, by decide, by decide⟩).1,
   (Run_single_search_call failingResolveEnv
      (sampleCmd "alice" (ConversationMembersType.other 0))).2
      (fun h => absurd h.2.2.2.2 (by decide))⟩

/-! ## The order of the checks -/

/-- No first error means that every check passed. -/
theorem firstError_eq_none (l : List (Option Error)) :
    firstError l = none ↔ ∀ r ∈ l, r = none := by
  induction l with
  | nil => simp [firstError]
  | cons r rest ih =>
    cases r with
    | none => simp [firstError, ih]
    | some e => simp [firstError]

/-- C20: the error of `ParseArgv` is the error of the first failing check in
the order arity, conversation reference, date-filter conflict, sent-before
parse, sent-after parse, max-hits limit, max-messages limit, pattern compile;
and `ParseArgv` returns `nil` exactly when none of the eight fails. -/
theorem ParseArgv_validation_order (env : ParseEnv) (ctx : Context) (c : CmdChatSearch) :
    (ParseArgv env ctx c).err = firstError (validationChecks env ctx) ∧
    ((ParseArgv env ctx c).err = none ↔ ∀ r ∈ validationChecks env ctx, r = none) := by
  have hfirst : (ParseArgv env ctx c).err = firstError (validationChecks env ctx) := by
    unfold validationChecks
    by_cases hargs : ctx.Args.length = 2
    swap
    · rw [ParseArgv_of_bad_arity env ctx c hargs]
      simp [firstError, hargs]
    cases hconv : (env.parseConversationResolvingRequest ctx (ctx.Args.getD 0 "")).2 with
    | some e =>
      rw [ParseArgv_of_bad_reference env ctx c e hargs hconv]
      simp only [hargs, ne_eq, not_true_eq_false, if_false, firstError]
    | none =>
      by_cases hboth : ctx.String "sent-before" ≠ "" ∧ ctx.String "sent-after" ≠ ""
      · rw [ParseArgv_of_two_dates env ctx c hargs hconv hboth.1 hboth.2]
        simp only [hargs, ne_eq, not_true_eq_false, if_false, firstError]
        rw [if_pos hboth]
        rfl
      cases hpb : (if ctx.String "sent-before" ≠ "" then
          (env.ParseAny (ctx.String "sent-before")).2 else none) with
      | some e =>
        have hb : ctx.String "sent-before" ≠ "" := by
          intro h0
          rw [if_neg (not_not.mpr h0)] at hpb
          cases hpb
        rw [if_pos hb] at hpb
        have ha : ctx.String "sent-after" = "" := by
          by_contra h0
          exact hboth ⟨hb, h0⟩
        rw [ParseArgv_of_bad_sent_before env ctx c e hargs hconv hb ha hpb]
        simp only [hargs, ne_eq, not_true_eq_false, if_false, firstError]
        rw [if_neg hboth]
        rfl
      | none =>
        have hbefore : ctx.String "sent-before" ≠ "" →
            (env.ParseAny (ctx.String "sent-before")).2 = none := by
          intro hb
          rw [if_pos hb] at hpb
          exact hpb
        cases hpa : (if ctx.String "sent-after" ≠ "" then
            (env.ParseAny (ctx.String "sent-after")).2 else none) with
        | some e =>
          have ha : ctx.String "sent-after" ≠ "" := by
            intro h0
            rw [if_neg (not_not.mpr h0)] at hpa
            cases hpa
          rw [if_pos ha] at hpa
          have hb : ctx.String "sent-before" = "" := by
            by_contra h0
            exact hboth ⟨h0, ha⟩
          rw [ParseArgv_of_bad_sent_after env ctx c e hargs hconv hb ha hpa]
          simp only [hargs, ne_eq, not_true_eq_false, if_false, firstError]
          rw [if_neg hboth]
          rfl
        | none =>
          have hafter : ctx.String "sent-after" ≠ "" →
              (env.ParseAny (ctx.String "sent-after")).2 = none := by
            intro ha
            rw [if_pos ha] at hpa
            exact hpa
          by_cases hhits : ctx.Int "max-hits" > env.MaxAllowedSearchHits
          · rw [ParseArgv_of_max_hits_over env ctx c hargs hconv hboth hbefore hafter hhits]
            simp only [hargs, ne_eq, not_true_eq_false, if_false, firstError]
            rw [if_neg hboth, if_pos hhits]
            rfl
          by_cases hmsgs : ctx.Int "max-messages" > env.MaxAllowedSearchMessages
          · rw [ParseArgv_of_max_messages_over env ctx c hargs hconv hboth hbefore hafter
              (not_lt.mp hhits) hmsgs]
            simp only [hargs, ne_eq, not_true_eq_false, if_false, firstError]
            rw [if_neg hboth, if_neg hhits, if_pos hmsgs]
            rfl
          have hrest : firstError
              [ if ctx.Args.length ≠ 2 then some usageError else none,
                (none : Option Error),
                if ctx.String "sent-before" ≠ "" ∧ ctx.String "sent-after" ≠ "" then
                  some onlyOneDateError
                else none,
                (none : Option Error), (none : Option Error),
                if ctx.Int "max-hits" > env.MaxAllowedSearchHits then
                  some (maxHitsError env.MaxAllowedSearchHits)
                else none,
                if ctx.Int "max-messages" > env.MaxAllowedSearchMessages then
                  some (maxMessagesError env.MaxAllowedSearchMessages)
                else none,
                env.Compile (if ctx.Bool "regex" then ctx.Args.getD 1 ""
                  else env.QuoteMeta (ctx.Args.getD 1 "")) ]
              = env.Compile (if ctx.Bool "regex" then ctx.Args.getD 1 ""
                  else env.QuoteMeta (ctx.Args.getD 1 "")) := by
            rw [if_neg (not_not.mpr hargs), if_neg hboth, if_neg hhits, if_neg hmsgs]
            cases env.Compile (if ctx.Bool "regex" then ctx.Args.getD 1 ""
                else env.QuoteMeta (ctx.Args.getD 1 "")) <;> rfl
          rw [hrest]
          cases hpat : env.Compile (if ctx.Bool "regex" then ctx.Args.getD 1 ""
              else env.QuoteMeta (ctx.Args.getD 1 "")) with
          | some e =>
            exact (ParseArgv_of_bad_pattern env ctx c e hargs hconv hboth hbefore hafter
              (not_lt.mp hhits) (not_lt.mp hmsgs) hpat).1
          | none =>
            rw [ParseArgv_of_checks env ctx c hargs hconv hboth hbefore hafter
              (not_lt.mp hhits) (not_lt.mp hmsgs) hpat]
  exact ⟨hfirst, by rw [hfirst]; exact firstError_eq_none _⟩

/-- C20 at an invocation that fails four checks (date conflict, sent-before
parse, max-hits limit, pattern compile): the conflict error is returned. -/
theorem ParseArgv_validation_order_witness :
    validationChecks sampleParseEnv conflictContext
      = [none, none, some onlyOneDateError, some (Error.foreign 2), none,
         some (maxHitsError 10000), none, some (Error.foreign 3)] ∧
    (ParseArgv sampleParseEnv conflictContext NewCmdChatSearchRunner).err
      = some onlyOneDateError :=
  ⟨by decide,
   (ParseArgv_validation_order sampleParseEnv conflictContext NewCmdChatSearchRunner).1.trans
     (by decide)⟩

end ChatSearch
